import Mathlib

/-!
# Veltech attendance scanner: scan / verify / dedup / persist loop

A shallow embedding of `src/veltechscanner.js`.

Conventions of the embedding

* React state of `App` and of `CameraScanner` is one record, `AppState`; every
  event handler is a function on it.  React commits state updates and re-runs
  effects between two events, so a callback that starts fresh (the interval
  callback, a button handler) sees the latest state, while the continuation of
  `captureAndProcess` after its `await` keeps the values its closure captured
  (`scannedVtuNumbers`, and `selectedSlot` inside `handleScanResult`).
* Outstanding promises of `analyzeIDCard` and outstanding `setTimeout`
  callbacks are kept as lists, so that "at most one in flight" is a property to
  prove and not a consequence of the types.
* A JavaScript `Set` of strings is the list of its elements in insertion order.
* `String.prototype.toUpperCase` is the host language's Unicode upper-casing.
  The development is parametric in it (`upper`); `asciiUpper` agrees with it on
  ASCII text and is used for concrete evaluation.
* `localStorage` holds the JSON tree that `JSON.stringify` serialises;
  `JSON.parse (JSON.stringify v) = v` on such trees is the host library's
  contract and is not re-proved here.
* Wall-clock readings and the success of `localStorage.setItem` are inputs
  (`Env`).
-/

namespace VeltechScanner

/-! ## Strings -/

/-- Characters matched by the regular-expression class `\s` (white space and
line terminators); `String.prototype.trim` strips the same set. -/
def isJsWhitespace (c : Char) : Bool :=
  let n := c.toNat
  n == 0x09 || n == 0x0A || n == 0x0B || n == 0x0C || n == 0x0D || n == 0x20 ||
  n == 0xA0 || n == 0x1680 || (0x2000 ≤ n && n ≤ 0x200A) || n == 0x2028 ||
  n == 0x2029 || n == 0x202F || n == 0x205F || n == 0x3000 || n == 0xFEFF

/-- The call `s.replace(/\s/g, '')`. -/
def stripWhitespace (s : String) : String :=
  String.mk (s.data.filter (fun c => !isJsWhitespace c))

/-- The call `s.trim()`. -/
def jsTrim (s : String) : String :=
  String.mk ((s.data.dropWhile isJsWhitespace).reverse.dropWhile isJsWhitespace).reverse

/-- Upper-casing of the ASCII letters, every other character kept. -/
def asciiUpper (s : String) : String :=
  String.mk (s.data.map Char.toUpper)

/-- The expression `result.vtu_number.toUpperCase().replace(/\s/g, '')` of
`captureAndProcess`. -/
def normalizeVtu (upper : String → String) (s : String) : String :=
  stripWhitespace (upper s)

/-- Truthiness of a string value. -/
def truthyStr (s : String) : Bool := s != ""

/-- Truthiness of a value that is a string, `null` or `undefined`. -/
def truthy : Option String → Bool
  | some s => truthyStr s
  | none => false

/-- Conversion of a value inside a template literal: `undefined` prints as the
word. -/
def templateStr : Option String → String
  | some s => s
  | none => "undefined"

/-- The call `xs.join(sep)` on an array of strings. -/
def jsJoin (sep : String) : List String → String
  | [] => ""
  | [x] => x
  | x :: y :: rest => x ++ sep ++ jsJoin sep (y :: rest)

/-- The expression `s.split('T')[0]`: the text before the first `T`. -/
def beforeT (s : String) : String :=
  String.mk (s.data.takeWhile (fun c => c != 'T'))

/-! ## JavaScript sets of strings -/

/-- The call `set.has(x)`. -/
def setHas (set : List String) (x : String) : Bool := decide (x ∈ set)

/-- The call `set.add(x)`: a new element goes last, a known one changes nothing. -/
def setAdd (set : List String) (x : String) : List String :=
  if x ∈ set then set else set ++ [x]

/-- The constructor `new Set(iterable)`. -/
def newSet (xs : List String) : List String := xs.foldl setAdd []

/-- The call `Array.from(set)`. -/
def arrayFrom (set : List String) : List String := set

/-! ## Data model -/

/-- The object parsed from the verifier's response.  A field the response
leaves out reads as `undefined` (`none`); a field that is present has the type
the request's `responseSchema` asks for. -/
structure AnalysisResult where
  is_valid : Option Bool
  student_name : Option String
  vtu_number : Option String
  rejection_reason : Option String
deriving DecidableEq, Repr

/-- One element of `attendanceRecords`, as built by `handleScanResult`. -/
structure AttendanceRecord where
  student_name : Option String
  vtu_number : String
  slot_name : String
  scan_date : String
  scan_time : String
deriving DecidableEq, Repr

/-- Values of the `scanStatus` state of `CameraScanner`. -/
inductive ScanStatus
  | ready | scanning | invalid | duplicate | success | error
deriving DecidableEq, Repr

/-- The three pieces of `App` state that make up a session. -/
structure Session where
  selectedSlot : Option String
  attendanceRecords : List AttendanceRecord
  scannedVtuNumbers : List String
deriving DecidableEq, Repr

/-- Readings of the environment taken while an event is handled. -/
structure Env where
  /-- Value of `new Date().toISOString()` in `handleScanResult`. -/
  isoNow : String
  /-- Value of `now.toLocaleTimeString(...)` in `handleScanResult`. -/
  localeTime : String
  /-- Value of `new Date().toISOString()` in `saveSession`. -/
  isoSaved : String
  /-- Whether `localStorage.setItem` throws (quota, private mode). -/
  setItemThrows : Bool
deriving DecidableEq, Repr

/-! ## JSON trees and `OfflineStorage` -/

/-- JSON trees (numbers never occur in a saved session and are left out). -/
inductive Json
  | null
  | bool (b : Bool)
  | str (s : String)
  | arr (xs : List Json)
  | obj (kvs : List (String × Json))

/-- Property access `v.key` on a parsed value: `none` is `undefined`. -/
def Json.get (key : String) : Json → Option Json
  | Json.obj kvs => (kvs.find? (fun kv => kv.1 == key)).map Prod.snd
  | _ => none

/-- What `JSON.stringify` writes for one record: a key whose value is
`undefined` is dropped. -/
def recordToJson (r : AttendanceRecord) : Json :=
  Json.obj ((match r.student_name with
      | some n => [("student_name", Json.str n)]
      | none => []) ++
    [("vtu_number", Json.str r.vtu_number), ("slot_name", Json.str r.slot_name),
     ("scan_date", Json.str r.scan_date), ("scan_time", Json.str r.scan_time)])

/-- The argument of `JSON.stringify` in `saveSession`:
`{...sessionData, lastSaved}`. -/
def sessionToJson (selectedSlot : String) (attendanceRecords : List AttendanceRecord)
    (scannedVtuNumbers : List String) (lastSaved : String) : Json :=
  Json.obj [("selectedSlot", Json.str selectedSlot),
    ("attendanceRecords", Json.arr (attendanceRecords.map recordToJson)),
    ("scannedVtuNumbers", Json.arr (scannedVtuNumbers.map Json.str)),
    ("lastSaved", Json.str lastSaved)]

/-- The method `OfflineStorage.saveSession`, on the content of the storage key:
`setItem` inside `try`, a throw is logged and nothing is written. -/
def OfflineStorage.saveSession (env : Env) (selectedSlot : String)
    (attendanceRecords : List AttendanceRecord) (scannedVtuNumbers : List String)
    (storage : Option Json) : Option Json :=
  if env.setItemThrows then storage
  else some (sessionToJson selectedSlot attendanceRecords scannedVtuNumbers env.isoSaved)

/-- The method `OfflineStorage.loadSession`: `data ? JSON.parse(data) : null`. -/
def OfflineStorage.loadSession (storage : Option Json) : Json :=
  match storage with
  | some v => v
  | none => Json.null

/-- The method `OfflineStorage.clearSession`. -/
def OfflineStorage.clearSession (_storage : Option Json) : Option Json := none

/-- Reading of a parsed value as a string field of a record. -/
def readString : Option Json → Option String
  | some (Json.str s) => some s
  | _ => none

/-- A parsed array element seen as an attendance record; `none` when a field
other than `student_name` is not a string. -/
def readRecord (v : Json) : Option AttendanceRecord :=
  match readString (v.get "vtu_number"), readString (v.get "slot_name"),
      readString (v.get "scan_date"), readString (v.get "scan_time") with
  | some vtu, some slot, some d, some t =>
    match v.get "student_name" with
    | none => some ⟨none, vtu, slot, d, t⟩
    | some (Json.str n) => some ⟨some n, vtu, slot, d, t⟩
    | some _ => none
  | _, _, _, _ => none

/-- All elements of a parsed array read with `f`, or `none`. -/
def readAll {α : Type} (f : Json → Option α) : List Json → Option (List α)
  | [] => some []
  | v :: vs =>
    match f v, readAll f vs with
    | some a, some as => some (a :: as)
    | _, _ => none

/-- The expression `saved.key || []` read as an array of `α`: a falsy value
(`undefined`, `null`, `false`, the empty string) gives the empty array. -/
def readArrayOrEmpty {α : Type} (f : Json → Option α) : Option Json → Option (List α)
  | none => some []
  | some Json.null => some []
  | some (Json.bool false) => some []
  | some (Json.str s) => if truthyStr s then none else some []
  | some (Json.arr xs) => readAll f xs
  | some _ => none

/-- Result of the load effect of `App`. -/
inductive LoadResult
  /-- The guard `saved?.selectedSlot` is falsy: the state keeps its initial values. -/
  | noSession
  /-- The three setters are called with these values. -/
  | restored (s : Session)
  /-- The stored value does not have the shape `saveSession` writes. -/
  | illTyped
deriving DecidableEq, Repr

/-- The first half of the load effect of `App`, on the value `loadSession`
returned. -/
def loadEffect (saved : Json) : LoadResult :=
  match saved.get "selectedSlot" with
  | none => LoadResult.noSession
  | some Json.null => LoadResult.noSession
  | some (Json.bool false) => LoadResult.noSession
  | some (Json.str slot) =>
    if truthyStr slot then
      match readArrayOrEmpty readRecord (saved.get "attendanceRecords"),
          readArrayOrEmpty (fun v => readString (some v)) (saved.get "scannedVtuNumbers") with
      | some recs, some ids => LoadResult.restored ⟨some slot, recs, newSet ids⟩
      | _, _ => LoadResult.illTyped
    else LoadResult.noSession
  | some _ => LoadResult.illTyped

/-! ## The scan loop -/

/-- Outcome of one attempt, as classified by `captureAndProcess`. -/
inductive Outcome
  /-- Branch `!result.is_valid`, with the message shown. -/
  | rejected (message : String)
  /-- Branch `scannedVtuNumbers.has(vtu)`. -/
  | duplicate
  /-- Fall-through: `onScanResult` is called with these two fields. -/
  | accepted (student_name : Option String) (vtu_number : String)
  /-- The `catch` block. -/
  | callFailed
deriving DecidableEq, Repr

/-- The branches of `captureAndProcess` after `await analyzeIDCard(base64)`.
`call = none` stands for a throw of `analyzeIDCard` (or of the capture before
it); reading `.toUpperCase` of an absent `vtu_number` throws a `TypeError`,
which the same `catch` receives. -/
def classify (upper : String → String) (scannedVtuNumbers : List String)
    (call : Option AnalysisResult) : Outcome :=
  match call with
  | none => Outcome.callFailed
  | some result =>
    if !(result.is_valid.getD false) then
      Outcome.rejected
        (if truthy result.rejection_reason then templateStr result.rejection_reason
         else "Invalid ID Card")
    else
      match result.vtu_number with
      | none => Outcome.callFailed
      | some raw =>
        let vtu := normalizeVtu upper raw
        if setHas scannedVtuNumbers vtu then Outcome.duplicate
        else Outcome.accepted result.student_name vtu

/-- Argument of `setScanStatus` in each branch. -/
def Outcome.status : Outcome → ScanStatus
  | Outcome.rejected _ => ScanStatus.invalid
  | Outcome.duplicate => ScanStatus.duplicate
  | Outcome.accepted _ _ => ScanStatus.success
  | Outcome.callFailed => ScanStatus.error

/-- Argument of `setStatusMessage` in each branch. -/
def Outcome.message : Outcome → String
  | Outcome.rejected m => m
  | Outcome.duplicate => "ID Already Scanned!"
  | Outcome.accepted n _ => "âœ“ " ++ templateStr n
  | Outcome.callFailed => "Scan failed. Try again."

/-- Delay of the `setTimeout` of each branch, in milliseconds. -/
def Outcome.delay : Outcome → Nat
  | Outcome.rejected _ => 2500
  | Outcome.duplicate => 2500
  | Outcome.accepted _ _ => 1500
  | Outcome.callFailed => 2000

/-- Message the `setTimeout` callback of each branch sets, if it sets one. -/
def Outcome.readyMessage : Outcome → Option String
  | Outcome.rejected _ => some "Position ID card in frame"
  | Outcome.duplicate => some "Position ID card in frame"
  | Outcome.accepted _ _ => some "Position next card"
  | Outcome.callFailed => none

/-- An outstanding call of `analyzeIDCard`, with what the closure of the
suspended `captureAndProcess` holds. -/
structure Attempt where
  /-- The `CameraScanner` instance whose setters the closure holds. -/
  owner : Nat
  /-- The `scannedVtuNumbers` prop of the render that created the callback. -/
  scannedVtuNumbers : List String
  /-- The `selectedSlot` captured by `handleScanResult` of that render. -/
  selectedSlot : String
deriving DecidableEq, Repr

/-- An outstanding `setTimeout` of `captureAndProcess`. -/
structure Timeout where
  owner : Nat
  delay : Nat
  message : Option String
deriving DecidableEq, Repr

/-- State of `App` and of its `CameraScanner`, the outstanding asynchronous
work, and the storage key. -/
structure AppState where
  selectedSlot : Option String
  attendanceRecords : List AttendanceRecord
  scannedVtuNumbers : List String
  isProcessing : Bool
  isOnline : Bool
  scanStatus : ScanStatus
  statusMessage : String
  /-- Identity of the current (or last) `CameraScanner` instance. -/
  scannerId : Nat
  pendingCalls : List Attempt
  pendingTimeouts : List Timeout
  localStorage : Option Json

/-- The session part of the state. -/
def AppState.session (s : AppState) : Session :=
  ⟨s.selectedSlot, s.attendanceRecords, s.scannedVtuNumbers⟩

/-- Whether `App` renders `CameraScanner`: past the early return
`if (!selectedSlot)`, in the branch `isOnline ? <CameraScanner .../> : ...`. -/
def AppState.scannerMounted (s : AppState) : Bool :=
  truthy s.selectedSlot && s.isOnline

/-- State of `App` before its effects run: the `useState` initial values. -/
def init (online : Bool) : AppState :=
  { selectedSlot := none, attendanceRecords := [], scannedVtuNumbers := [],
    isProcessing := false, isOnline := online, scanStatus := ScanStatus.ready,
    statusMessage := "Position ID card in frame", scannerId := 0,
    pendingCalls := [], pendingTimeouts := [], localStorage := none }

/-- Re-render after an event: a `CameraScanner` that was not rendered before
and is rendered now is a new instance with its initial state. -/
def render (before after : AppState) : AppState :=
  if !before.scannerMounted && after.scannerMounted then
    { after with scannerId := after.scannerId + 1, scanStatus := ScanStatus.ready,
                 statusMessage := "Position ID card in frame" }
  else after

/-- Calls of `setScanStatus` and `setStatusMessage` from a closure of instance
`owner`: they act only while that instance is the mounted one. -/
def setScanner (owner : Nat) (status : ScanStatus) (message : Option String)
    (s : AppState) : AppState :=
  if s.scannerMounted && s.scannerId == owner then
    { s with scanStatus := status, statusMessage := message.getD s.statusMessage }
  else s

/-- The save effect of `App`, run after a render in which `selectedSlot`,
`attendanceRecords` or `scannedVtuNumbers` was set. -/
def saveEffect (env : Env) (s : AppState) : AppState :=
  match s.selectedSlot with
  | some slot =>
    if truthyStr slot then
      { s with localStorage := OfflineStorage.saveSession env slot s.attendanceRecords
                 (arrayFrom s.scannedVtuNumbers) s.localStorage }
    else s
  | none => s

/-- The handler `handleScanResult` of the render that captured `selectedSlot`;
both setters take an updater function, so they act on the current state. -/
def handleScanResult (env : Env) (selectedSlot : String) (student_name : Option String)
    (vtu_number : String) (s : AppState) : AppState :=
  let record : AttendanceRecord :=
    { student_name := student_name, vtu_number := vtu_number, slot_name := selectedSlot,
      scan_date := beforeT env.isoNow, scan_time := env.localeTime }
  { s with attendanceRecords := record :: s.attendanceRecords,
           scannedVtuNumbers := newSet (s.scannedVtuNumbers ++ [vtu_number]) }

/-- The callback `captureAndProcess` up to its `await`.  The refs are set
while the component is mounted, so the guard reduces to `isProcessing`.  It is
only called from the interval of a mounted scanner, where `selectedSlot` is a
non-empty string. -/
def captureAndProcess (s : AppState) : AppState :=
  match s.selectedSlot with
  | none => s
  | some slot =>
    if s.isProcessing then s
    else
      { s with isProcessing := true, scanStatus := ScanStatus.scanning,
               statusMessage := "Scanning ID card...",
               pendingCalls := s.pendingCalls ++ [⟨s.scannerId, s.scannedVtuNumbers, slot⟩] }

/-- The interval callback of `CameraScanner`; the interval exists while the
component is mounted. -/
def tick (s : AppState) : AppState :=
  if s.scannerMounted && !s.isProcessing && s.scanStatus == ScanStatus.ready then
    captureAndProcess s
  else s

/-- The callback `captureAndProcess` from its `await` on, for the `i`-th
outstanding call settling with `call`. -/
def captureAndProcessResume (upper : String → String) (env : Env) (i : Nat)
    (call : Option AnalysisResult) (s : AppState) : AppState :=
  match s.pendingCalls[i]? with
  | none => s
  | some a =>
    let o := classify upper a.scannedVtuNumbers call
    let s1 := { s with pendingCalls := s.pendingCalls.eraseIdx i }
    let s2 := setScanner a.owner o.status (some o.message) s1
    let s3 :=
      match o with
      | Outcome.accepted name vtu =>
        saveEffect env (handleScanResult env a.selectedSlot name vtu s2)
      | _ => s2
    { s3 with pendingTimeouts := s3.pendingTimeouts ++ [⟨a.owner, o.delay, o.readyMessage⟩] }

/-- The callback passed to `setTimeout` in `captureAndProcess`, for the `i`-th
outstanding timer. -/
def timeoutFire (i : Nat) (s : AppState) : AppState :=
  match s.pendingTimeouts[i]? with
  | none => s
  | some t =>
    let s1 := { s with pendingTimeouts := s.pendingTimeouts.eraseIdx i }
    let s2 := setScanner t.owner ScanStatus.ready t.message s1
    { s2 with isProcessing := false }

/-- The prop `onSlotSelect` of `SlotSelector`, which is rendered while
`selectedSlot` is falsy; both the Enter key and the Start button require a
name with `trim()` non-empty. -/
def onSlotSelect (env : Env) (name : String) (s : AppState) : AppState :=
  if !truthy s.selectedSlot && truthyStr (jsTrim name) then
    saveEffect env { s with selectedSlot := some name }
  else s

/-- The handler `handleReset` of the Change Slot button, which is rendered
while `selectedSlot` is truthy; `confirmAnswer` is what `confirm` returns. -/
def handleReset (env : Env) (confirmAnswer : Bool) (s : AppState) : AppState :=
  if !truthy s.selectedSlot then s
  else if s.attendanceRecords.length != 0 && !confirmAnswer then s
  else
    saveEffect env
      { s with localStorage := OfflineStorage.clearSession s.localStorage,
               selectedSlot := none, attendanceRecords := [], scannedVtuNumbers := [] }

/-- Events the application reacts to. -/
inductive Event
  /-- The 3000 ms interval fires. -/
  | tick
  /-- The `i`-th outstanding call of `analyzeIDCard` settles. -/
  | callDone (i : Nat) (call : Option AnalysisResult)
  /-- The `i`-th outstanding `setTimeout` fires. -/
  | timeout (i : Nat)
  /-- The window event `online`. -/
  | online
  /-- The window event `offline`. -/
  | offline
  /-- A slot is chosen in `SlotSelector`. -/
  | selectSlot (name : String)
  /-- The Change Slot button, with the answer to the confirmation dialog. -/
  | reset (confirmAnswer : Bool)
deriving DecidableEq, Repr

/-- The handler of an event, before the re-render. -/
def handle (upper : String → String) (env : Env) (s : AppState) : Event → AppState
  | Event.tick => tick s
  | Event.callDone i call => captureAndProcessResume upper env i call s
  | Event.timeout i => timeoutFire i s
  | Event.online => { s with isOnline := true }
  | Event.offline => { s with isOnline := false }
  | Event.selectSlot name => onSlotSelect env name s
  | Event.reset a => handleReset env a s

/-- One event: its handler, then the re-render. -/
def step (upper : String → String) (s : AppState) (e : Env × Event) : AppState :=
  render s (handle upper e.1 s e.2)

/-- A sequence of events, oldest first. -/
def run (upper : String → String) (s : AppState) (es : List (Env × Event)) : AppState :=
  es.foldl (step upper) s

/-! ## Export -/

/-- The template literal of one row in `exportCSV`. -/
def csvRow (r : AttendanceRecord) : String :=
  "\"" ++ templateStr r.student_name ++ "\",\"" ++ r.vtu_number ++ "\",\"" ++ r.slot_name ++
    "\",\"" ++ r.scan_date ++ "\",\"" ++ r.scan_time ++ "\""

/-- The text `csv` built by `exportCSV`. -/
def exportCSV (attendanceRecords : List AttendanceRecord) : String :=
  let headers := ["Name", "VTU Number", "Slot", "Date", "Time"]
  jsJoin "\n" (jsJoin "," headers :: attendanceRecords.map csvRow)

/-! ## Invariant of the loop -/

/-- What holds in every state the application reaches from `init`. -/
structure Inv (s : AppState) : Prop where
  /-- No two records carry the same identifier. -/
  records_nodup : (s.attendanceRecords.map AttendanceRecord.vtu_number).Nodup
  /-- The list standing for the set has no repetition. -/
  set_nodup : s.scannedVtuNumbers.Nodup
  /-- The set holds the identifiers of the records and nothing else. -/
  set_eq : ∀ x, x ∈ s.scannedVtuNumbers ↔
    x ∈ s.attendanceRecords.map AttendanceRecord.vtu_number
  /-- The set a suspended attempt captured contains the current set. -/
  snapshot : ∀ a ∈ s.pendingCalls, ∀ x ∈ s.scannedVtuNumbers, x ∈ a.scannedVtuNumbers
  /-- An outstanding call or timer exists exactly while `isProcessing` is set,
  and then there is one. -/
  in_flight : s.pendingCalls.length + s.pendingTimeouts.length =
    if s.isProcessing then 1 else 0

/-- The identifier `vtu` is known to the session: it is in the set, every
suspended attempt captured a set that holds it, and a record exists. -/
def Seen (vtu : String) (s : AppState) : Prop :=
  vtu ∈ s.scannedVtuNumbers ∧ (∀ b ∈ s.pendingCalls, vtu ∈ b.scannedVtuNumbers) ∧
    s.attendanceRecords ≠ []

/-! ## Concrete data for evaluation -/

/-- A clock reading, with a storage that accepts the write. -/
def demoEnv : Env :=
  ⟨"2026-01-02T10:11:12.000Z", "10:11 AM", "2026-01-02T10:11:13.000Z", false⟩

/-- A verdict with every required field, for a card found valid. -/
def validVerdict (name vtu : String) : AnalysisResult :=
  ⟨some true, some name, some vtu, none⟩

/-- A session is started on the slot "Morning Session" and the first tick
starts an attempt. -/
def demoStart : List (Env × Event) :=
  [(demoEnv, Event.selectSlot "Morning Session"), (demoEnv, Event.tick)]

/-- The first attempt's timer expires and the next tick starts an attempt. -/
def demoNext : List (Env × Event) :=
  [(demoEnv, Event.timeout 0), (demoEnv, Event.tick)]

/-! ## The export as the specification words it -/

/-- A field wrapped in double quotes. -/
def quoted (field : String) : String := "\"" ++ field ++ "\""

/-- The header line. -/
def csvHeader : String := "Name,VTU Number,Slot,Date,Time"

/-- The five fields of a record in the fixed order name, identifier, slot,
date, time; an absent name shows as the template literal prints it. -/
def csvFields (r : AttendanceRecord) : List String :=
  [templateStr r.student_name, r.vtu_number, r.slot_name, r.scan_date, r.scan_time]

/-- A row: the fields, each quoted, separated by commas. -/
def specRow (r : AttendanceRecord) : String :=
  String.intercalate "," ((csvFields r).map quoted)

/-- The lines of the table: the header, then one row per record in the order
of the records. -/
def specLines (records : List AttendanceRecord) : List String :=
  csvHeader :: records.map specRow

/-- A response that lacks one of the fields `is_valid`, `student_name`,
`vtu_number`. -/
def missingRequired (r : AnalysisResult) : Bool :=
  r.is_valid.isNone || r.student_name.isNone || r.vtu_number.isNone

/-- A response without `student_name`, otherwise a valid verdict. -/
def namelessVerdict : AnalysisResult := ⟨some true, none, some "vtu 1023", none⟩

/-- A response without `is_valid`. -/
def unflaggedVerdict : AnalysisResult := ⟨none, some "A. Kumar", some "vtu 1023", none⟩

/-- A response without `vtu_number`, flagged valid. -/
def unnumberedVerdict : AnalysisResult := ⟨some true, some "A. Kumar", none, none⟩

/-! ## Texts without quote or newline -/

/-- The double-quote character. -/
def quoteChar : Char := Char.ofNat 34

/-- The newline character. -/
def newlineChar : Char := Char.ofNat 10

/-- A text that contains neither a double quote nor a newline. -/
def cleanText (f : String) : Bool :=
  !f.data.contains quoteChar && !f.data.contains newlineChar

/-- A record whose five field texts contain neither a double quote nor a
newline. -/
def cleanRecord (r : AttendanceRecord) : Bool :=
  (csvFields r).all cleanText

/-- A reset while the second attempt of a session is in flight, then a new
slot: the first card is accepted, its timer fires, a tick starts the second
attempt, the reset is confirmed and "Evening Session" is chosen. -/
def resetInFlightAfterAccept : List (Env × Event) :=
  demoStart ++ (demoEnv, Event.callDone 0 (some (validVerdict "A. Kumar" "vtu 1023"))) ::
    demoNext ++ [(demoEnv, Event.reset true), (demoEnv, Event.selectSlot "Evening Session")]

/-- A reset while the first attempt of a session is in flight (no record yet,
so no confirmation is asked), then the slot "Evening Session" is chosen. -/
def resetInFlight : List (Env × Event) :=
  demoStart ++ [(demoEnv, Event.reset false), (demoEnv, Event.selectSlot "Evening Session")]

/-- The record stored for `namelessVerdict` on the first scan of a session:
it has no name. -/
def namelessRecord : AttendanceRecord :=
  { student_name := none, vtu_number := "VTU1023", slot_name := "Morning Session",
    scan_date := "2026-01-02", scan_time := "10:11 AM" }

/-- The record stored on the first scan of a session for a card whose name
reads "undefined". -/
def undefinedNameRecord : AttendanceRecord :=
  { student_name := some "undefined", vtu_number := "VTU1023",
    slot_name := "Morning Session", scan_date := "2026-01-02", scan_time := "10:11 AM" }

end VeltechScanner

/-! # Theorems -/

namespace VeltechScanner

/-! ## Sets -/

theorem mem_setAdd (set : List String) (x y : String) :
    y ∈ setAdd set x ↔ y ∈ set ∨ y = x := by
  unfold setAdd
  split
  · constructor
    · intro h; exact Or.inl h
    · rintro (h | h)
      · exact h
      · subst h; assumption
  · simp

theorem nodup_setAdd (set : List String) (x : String) (h : set.Nodup) :
    (setAdd set x).Nodup := by
  unfold setAdd
  split
  · exact h
  · rename_i hx
    exact List.Nodup.append h (List.nodup_singleton x) (by simpa using hx)

theorem mem_foldl_setAdd (xs acc : List String) (y : String) :
    y ∈ xs.foldl setAdd acc ↔ y ∈ acc ∨ y ∈ xs := by
  induction xs generalizing acc with
  | nil => simp
  | cons x xs ih =>
    simp only [List.foldl_cons, ih, mem_setAdd, List.mem_cons]
    tauto

theorem nodup_foldl_setAdd (xs acc : List String) (h : acc.Nodup) :
    (xs.foldl setAdd acc).Nodup := by
  induction xs generalizing acc with
  | nil => simpa using h
  | cons x xs ih => exact ih _ (nodup_setAdd acc x h)

theorem foldl_setAdd_of_nodup (xs acc : List String) (h : (acc ++ xs).Nodup) :
    xs.foldl setAdd acc = acc ++ xs := by
  induction xs generalizing acc with
  | nil => simp
  | cons x xs ih =>
    have hx : x ∉ acc := by
      intro hmem
      have := List.nodup_append.mp h
      exact this.2.2 hmem (List.mem_cons_self x xs)
    have h2 : (acc ++ [x] ++ xs).Nodup := by simpa using h
    simp only [List.foldl_cons, setAdd, if_neg hx]
    rw [ih _ h2]; simp

theorem mem_newSet (xs : List String) (y : String) : y ∈ newSet xs ↔ y ∈ xs := by
  simp [newSet, mem_foldl_setAdd]

theorem nodup_newSet (xs : List String) : (newSet xs).Nodup :=
  nodup_foldl_setAdd xs [] List.nodup_nil

theorem newSet_of_nodup (xs : List String) (h : xs.Nodup) : newSet xs = xs := by
  simpa [newSet] using foldl_setAdd_of_nodup xs [] (by simpa using h)

end VeltechScanner

namespace VeltechScanner

/-! ## Frame lemmas -/

theorem Inv.transport {s t : AppState} (h : Inv s)
    (h1 : t.attendanceRecords = s.attendanceRecords)
    (h2 : t.scannedVtuNumbers = s.scannedVtuNumbers)
    (h3 : t.pendingCalls = s.pendingCalls)
    (h4 : t.pendingTimeouts = s.pendingTimeouts)
    (h5 : t.isProcessing = s.isProcessing) : Inv t := by
  constructor
  · rw [h1]; exact h.records_nodup
  · rw [h2]; exact h.set_nodup
  · rw [h1, h2]; exact h.set_eq
  · rw [h2, h3]; exact h.snapshot
  · rw [h3, h4, h5]; exact h.in_flight

@[simp] theorem render_attendanceRecords (a b : AppState) :
    (render a b).attendanceRecords = b.attendanceRecords := by
  unfold render; split <;> rfl

@[simp] theorem render_scannedVtuNumbers (a b : AppState) :
    (render a b).scannedVtuNumbers = b.scannedVtuNumbers := by
  unfold render; split <;> rfl

@[simp] theorem render_selectedSlot (a b : AppState) :
    (render a b).selectedSlot = b.selectedSlot := by
  unfold render; split <;> rfl

@[simp] theorem render_isProcessing (a b : AppState) :
    (render a b).isProcessing = b.isProcessing := by
  unfold render; split <;> rfl

@[simp] theorem render_isOnline (a b : AppState) :
    (render a b).isOnline = b.isOnline := by
  unfold render; split <;> rfl

@[simp] theorem render_pendingCalls (a b : AppState) :
    (render a b).pendingCalls = b.pendingCalls := by
  unfold render; split <;> rfl

@[simp] theorem render_pendingTimeouts (a b : AppState) :
    (render a b).pendingTimeouts = b.pendingTimeouts := by
  unfold render; split <;> rfl

@[simp] theorem render_localStorage (a b : AppState) :
    (render a b).localStorage = b.localStorage := by
  unfold render; split <;> rfl

theorem render_inv (a b : AppState) (h : Inv b) : Inv (render a b) :=
  h.transport (by simp) (by simp) (by simp) (by simp) (by simp)

@[simp] theorem setScanner_attendanceRecords (o : Nat) (st : ScanStatus) (m : Option String)
    (s : AppState) : (setScanner o st m s).attendanceRecords = s.attendanceRecords := by
  unfold setScanner; split <;> rfl

@[simp] theorem setScanner_scannedVtuNumbers (o : Nat) (st : ScanStatus) (m : Option String)
    (s : AppState) : (setScanner o st m s).scannedVtuNumbers = s.scannedVtuNumbers := by
  unfold setScanner; split <;> rfl

@[simp] theorem setScanner_selectedSlot (o : Nat) (st : ScanStatus) (m : Option String)
    (s : AppState) : (setScanner o st m s).selectedSlot = s.selectedSlot := by
  unfold setScanner; split <;> rfl

@[simp] theorem setScanner_isProcessing (o : Nat) (st : ScanStatus) (m : Option String)
    (s : AppState) : (setScanner o st m s).isProcessing = s.isProcessing := by
  unfold setScanner; split <;> rfl

@[simp] theorem setScanner_isOnline (o : Nat) (st : ScanStatus) (m : Option String)
    (s : AppState) : (setScanner o st m s).isOnline = s.isOnline := by
  unfold setScanner; split <;> rfl

@[simp] theorem setScanner_pendingCalls (o : Nat) (st : ScanStatus) (m : Option String)
    (s : AppState) : (setScanner o st m s).pendingCalls = s.pendingCalls := by
  unfold setScanner; split <;> rfl

@[simp] theorem setScanner_pendingTimeouts (o : Nat) (st : ScanStatus) (m : Option String)
    (s : AppState) : (setScanner o st m s).pendingTimeouts = s.pendingTimeouts := by
  unfold setScanner; split <;> rfl

@[simp] theorem setScanner_localStorage (o : Nat) (st : ScanStatus) (m : Option String)
    (s : AppState) : (setScanner o st m s).localStorage = s.localStorage := by
  unfold setScanner; split <;> rfl

@[simp] theorem saveEffect_attendanceRecords (env : Env) (s : AppState) :
    (saveEffect env s).attendanceRecords = s.attendanceRecords := by
  unfold saveEffect; split <;> [split; skip] <;> rfl

@[simp] theorem saveEffect_scannedVtuNumbers (env : Env) (s : AppState) :
    (saveEffect env s).scannedVtuNumbers = s.scannedVtuNumbers := by
  unfold saveEffect; split <;> [split; skip] <;> rfl

@[simp] theorem saveEffect_selectedSlot (env : Env) (s : AppState) :
    (saveEffect env s).selectedSlot = s.selectedSlot := by
  unfold saveEffect; split <;> [split; skip] <;> rfl

@[simp] theorem saveEffect_isProcessing (env : Env) (s : AppState) :
    (saveEffect env s).isProcessing = s.isProcessing := by
  unfold saveEffect; split <;> [split; skip] <;> rfl

@[simp] theorem saveEffect_isOnline (env : Env) (s : AppState) :
    (saveEffect env s).isOnline = s.isOnline := by
  unfold saveEffect; split <;> [split; skip] <;> rfl

@[simp] theorem saveEffect_pendingCalls (env : Env) (s : AppState) :
    (saveEffect env s).pendingCalls = s.pendingCalls := by
  unfold saveEffect; split <;> [split; skip] <;> rfl

@[simp] theorem saveEffect_pendingTimeouts (env : Env) (s : AppState) :
    (saveEffect env s).pendingTimeouts = s.pendingTimeouts := by
  unfold saveEffect; split <;> [split; skip] <;> rfl

@[simp] theorem saveEffect_scanStatus (env : Env) (s : AppState) :
    (saveEffect env s).scanStatus = s.scanStatus := by
  unfold saveEffect; split <;> [split; skip] <;> rfl

@[simp] theorem saveEffect_scannerId (env : Env) (s : AppState) :
    (saveEffect env s).scannerId = s.scannerId := by
  unfold saveEffect; split <;> [split; skip] <;> rfl

theorem saveEffect_inv (env : Env) (s : AppState) (h : Inv s) : Inv (saveEffect env s) :=
  h.transport (by simp) (by simp) (by simp) (by simp) (by simp)

theorem init_inv (online : Bool) : Inv (init online) := by
  constructor <;> simp [init]

end VeltechScanner

namespace VeltechScanner

/-! ## Preservation of the invariant -/

theorem Inv.idle {s : AppState} (h : Inv s) (hp : s.isProcessing = false) :
    s.pendingCalls = [] ∧ s.pendingTimeouts = [] := by
  have := h.in_flight
  rw [hp] at this
  simp at this
  exact this

theorem Inv.busy_call {s : AppState} (h : Inv s) {i : Nat} {a : Attempt}
    (ha : s.pendingCalls[i]? = some a) :
    s.pendingCalls = [a] ∧ i = 0 ∧ s.pendingTimeouts = [] ∧ s.isProcessing = true := by
  have hf := h.in_flight
  have hlt : i < s.pendingCalls.length := by
    rcases List.getElem?_eq_some.mp ha with ⟨hi, _⟩
    exact hi
  have hle : s.pendingCalls.length + s.pendingTimeouts.length ≤ 1 := by
    rw [hf]; split <;> omega
  have hlen : s.pendingCalls.length = 1 := by omega
  have hi0 : i = 0 := by omega
  have ht : s.pendingTimeouts.length = 0 := by omega
  subst hi0
  refine ⟨?_, rfl, List.length_eq_zero.mp ht, ?_⟩
  · match hs : s.pendingCalls, hlen with
    | [b], _ =>
      rw [hs] at ha
      simp at ha
      rw [ha]
  · cases hp : s.isProcessing with
    | true => rfl
    | false => rw [hp] at hf; simp at hf; rw [hf.1] at hlen; simp at hlen

theorem Inv.busy_timeout {s : AppState} (h : Inv s) {i : Nat} {t : Timeout}
    (ht : s.pendingTimeouts[i]? = some t) :
    s.pendingTimeouts = [t] ∧ i = 0 ∧ s.pendingCalls = [] ∧ s.isProcessing = true := by
  have hf := h.in_flight
  have hlt : i < s.pendingTimeouts.length := by
    rcases List.getElem?_eq_some.mp ht with ⟨hi, _⟩
    exact hi
  have hle : s.pendingCalls.length + s.pendingTimeouts.length ≤ 1 := by
    rw [hf]; split <;> omega
  have hlen : s.pendingTimeouts.length = 1 := by omega
  have hi0 : i = 0 := by omega
  have hc : s.pendingCalls.length = 0 := by omega
  subst hi0
  refine ⟨?_, rfl, List.length_eq_zero.mp hc, ?_⟩
  · match hs : s.pendingTimeouts, hlen with
    | [b], _ =>
      rw [hs] at ht
      simp at ht
      rw [ht]
  · cases hp : s.isProcessing with
    | true => rfl
    | false => rw [hp] at hf; simp at hf; rw [hf.2] at hlen; simp at hlen

theorem captureAndProcess_inv (s : AppState) (h : Inv s) : Inv (captureAndProcess s) := by
  unfold captureAndProcess
  split
  · exact h
  · split
    · exact h
    · rename_i slot hp
      have hp2 : s.isProcessing = false := by simpa using hp
      obtain ⟨hc, ht⟩ := h.idle hp2
      constructor
      · exact h.records_nodup
      · exact h.set_nodup
      · exact h.set_eq
      · intro a ha x hx
        simp only [hc, List.nil_append, List.mem_singleton] at ha
        subst ha
        exact hx
      · simp [hc, ht]

theorem tick_inv (s : AppState) (h : Inv s) : Inv (tick s) := by
  unfold tick
  split
  · exact captureAndProcess_inv s h
  · exact h

theorem timeoutFire_inv (i : Nat) (s : AppState) (h : Inv s) : Inv (timeoutFire i s) := by
  unfold timeoutFire
  split
  · exact h
  · rename_i t ht
    obtain ⟨h1, h2, h3, _⟩ := h.busy_timeout ht
    subst h2
    constructor
    · simpa using h.records_nodup
    · simpa using h.set_nodup
    · simpa using h.set_eq
    · simpa using h.snapshot
    · simp [h1, h3]

theorem handleReset_inv (env : Env) (c : Bool) (s : AppState) (h : Inv s) :
    Inv (handleReset env c s) := by
  unfold handleReset
  split
  · exact h
  · split
    · exact h
    · apply saveEffect_inv
      constructor
      · simp
      · simp
      · simp
      · simp
      · exact h.in_flight

theorem onSlotSelect_inv (env : Env) (n : String) (s : AppState) (h : Inv s) :
    Inv (onSlotSelect env n s) := by
  unfold onSlotSelect
  split
  · exact saveEffect_inv env _ (h.transport rfl rfl rfl rfl rfl)
  · exact h

end VeltechScanner

namespace VeltechScanner

/-! ## The continuation of an attempt -/

theorem resume_none (upper : String → String) (env : Env) (i : Nat)
    (call : Option AnalysisResult) (s : AppState) (h : s.pendingCalls[i]? = none) :
    captureAndProcessResume upper env i call s = s := by
  simp [captureAndProcessResume, h]

theorem resume_pendingCalls (upper : String → String) (env : Env) (i : Nat)
    (call : Option AnalysisResult) (s : AppState) (a : Attempt)
    (h : s.pendingCalls[i]? = some a) :
    (captureAndProcessResume upper env i call s).pendingCalls = s.pendingCalls.eraseIdx i := by
  simp only [captureAndProcessResume, h]
  cases classify upper a.scannedVtuNumbers call <;> simp [handleScanResult]

theorem resume_pendingTimeouts (upper : String → String) (env : Env) (i : Nat)
    (call : Option AnalysisResult) (s : AppState) (a : Attempt)
    (h : s.pendingCalls[i]? = some a) :
    (captureAndProcessResume upper env i call s).pendingTimeouts =
      s.pendingTimeouts ++ [⟨a.owner, (classify upper a.scannedVtuNumbers call).delay,
        (classify upper a.scannedVtuNumbers call).readyMessage⟩] := by
  simp only [captureAndProcessResume, h]
  cases classify upper a.scannedVtuNumbers call <;> simp [handleScanResult]

theorem resume_isProcessing (upper : String → String) (env : Env) (i : Nat)
    (call : Option AnalysisResult) (s : AppState) :
    (captureAndProcessResume upper env i call s).isProcessing = s.isProcessing := by
  unfold captureAndProcessResume
  split
  · rfl
  · rename_i a _
    cases classify upper a.scannedVtuNumbers call <;> simp [handleScanResult]

theorem resume_selectedSlot (upper : String → String) (env : Env) (i : Nat)
    (call : Option AnalysisResult) (s : AppState) :
    (captureAndProcessResume upper env i call s).selectedSlot = s.selectedSlot := by
  unfold captureAndProcessResume
  split
  · rfl
  · rename_i a _
    cases classify upper a.scannedVtuNumbers call <;> simp [handleScanResult]

theorem resume_isOnline (upper : String → String) (env : Env) (i : Nat)
    (call : Option AnalysisResult) (s : AppState) :
    (captureAndProcessResume upper env i call s).isOnline = s.isOnline := by
  unfold captureAndProcessResume
  split
  · rfl
  · rename_i a _
    cases classify upper a.scannedVtuNumbers call <;> simp [handleScanResult]

theorem resume_accepted (upper : String → String) (env : Env) (i : Nat)
    (call : Option AnalysisResult) (s : AppState) (a : Attempt) (name : Option String)
    (vtu : String) (h : s.pendingCalls[i]? = some a)
    (ho : classify upper a.scannedVtuNumbers call = Outcome.accepted name vtu) :
    (captureAndProcessResume upper env i call s).attendanceRecords =
        ⟨name, vtu, a.selectedSlot, beforeT env.isoNow, env.localeTime⟩ :: s.attendanceRecords ∧
      (captureAndProcessResume upper env i call s).scannedVtuNumbers =
        newSet (s.scannedVtuNumbers ++ [vtu]) := by
  simp only [captureAndProcessResume, h, ho]
  simp [handleScanResult]

theorem resume_not_accepted (upper : String → String) (env : Env) (i : Nat)
    (call : Option AnalysisResult) (s : AppState) (a : Attempt)
    (h : s.pendingCalls[i]? = some a)
    (ho : ∀ name vtu, classify upper a.scannedVtuNumbers call ≠ Outcome.accepted name vtu) :
    (captureAndProcessResume upper env i call s).attendanceRecords = s.attendanceRecords ∧
      (captureAndProcessResume upper env i call s).scannedVtuNumbers = s.scannedVtuNumbers ∧
      (captureAndProcessResume upper env i call s).localStorage = s.localStorage := by
  simp only [captureAndProcessResume, h]
  cases hc : classify upper a.scannedVtuNumbers call with
  | accepted n v => exact absurd hc (ho n v)
  | rejected m => simp
  | duplicate => simp
  | callFailed => simp

theorem classify_accepted_not_mem (upper : String → String) (set : List String)
    (call : Option AnalysisResult) (name : Option String) (vtu : String)
    (h : classify upper set call = Outcome.accepted name vtu) : vtu ∉ set := by
  unfold classify at h
  split at h
  · cases h
  · split at h
    · cases h
    · split at h
      · cases h
      · simp only at h
        split at h
        · cases h
        · rename_i hn
          injection h with h1 h2
          subst h2
          simpa [setHas] using hn

theorem captureAndProcessResume_inv (upper : String → String) (env : Env) (i : Nat)
    (call : Option AnalysisResult) (s : AppState) (h : Inv s) :
    Inv (captureAndProcessResume upper env i call s) := by
  cases ha : s.pendingCalls[i]? with
  | none => rw [resume_none upper env i call s ha]; exact h
  | some a =>
    obtain ⟨hc, hi, ht, hp⟩ := h.busy_call ha
    have hpc := resume_pendingCalls upper env i call s a ha
    have hpt := resume_pendingTimeouts upper env i call s a ha
    have hip := resume_isProcessing upper env i call s
    have hflight : (captureAndProcessResume upper env i call s).pendingCalls.length +
        (captureAndProcessResume upper env i call s).pendingTimeouts.length =
        if (captureAndProcessResume upper env i call s).isProcessing then 1 else 0 := by
      rw [hpc, hpt, hip, hp, hc, ht, hi]; simp
    have hsnap : ∀ b ∈ (captureAndProcessResume upper env i call s).pendingCalls,
        ∀ x ∈ (captureAndProcessResume upper env i call s).scannedVtuNumbers,
          x ∈ b.scannedVtuNumbers := by
      intro b hb
      rw [hpc, hc, hi] at hb
      simp at hb
    by_cases hacc : ∃ name vtu, classify upper a.scannedVtuNumbers call = Outcome.accepted name vtu
    · obtain ⟨name, vtu, ho⟩ := hacc
      obtain ⟨hr, hs⟩ := resume_accepted upper env i call s a name vtu ha ho
      have hnot : vtu ∉ s.scannedVtuNumbers := fun hm =>
        classify_accepted_not_mem upper _ call name vtu ho
          (h.snapshot a (by rw [hc]; simp) vtu hm)
      constructor
      · rw [hr]
        simp only [List.map_cons, List.nodup_cons]
        exact ⟨fun hm => hnot ((h.set_eq vtu).mpr hm), h.records_nodup⟩
      · rw [hs]; exact nodup_newSet _
      · intro x
        rw [hr, hs, mem_newSet]
        simp only [List.mem_append, List.mem_singleton, List.map_cons, List.mem_cons]
        rw [h.set_eq x]
        tauto
      · exact hsnap
      · exact hflight
    · have hno : ∀ name vtu, classify upper a.scannedVtuNumbers call ≠ Outcome.accepted name vtu :=
        fun n v hh => hacc ⟨n, v, hh⟩
      obtain ⟨hr, hs, _⟩ := resume_not_accepted upper env i call s a ha hno
      constructor
      · rw [hr]; exact h.records_nodup
      · rw [hs]; exact h.set_nodup
      · rw [hr, hs]; exact h.set_eq
      · exact hsnap
      · exact hflight

theorem step_inv (upper : String → String) (s : AppState) (e : Env × Event) (h : Inv s) :
    Inv (step upper s e) := by
  unfold step
  apply render_inv
  cases he : e.2 with
  | tick => exact tick_inv s h
  | callDone i call => exact captureAndProcessResume_inv upper e.1 i call s h
  | timeout i => exact timeoutFire_inv i s h
  | online => exact h.transport rfl rfl rfl rfl rfl
  | offline => exact h.transport rfl rfl rfl rfl rfl
  | selectSlot n => exact onSlotSelect_inv e.1 n s h
  | reset c => exact handleReset_inv e.1 c s h

theorem run_inv (upper : String → String) (es : List (Env × Event)) (s : AppState)
    (h : Inv s) : Inv (run upper s es) := by
  induction es generalizing s with
  | nil => exact h
  | cons e es ih => exact ih _ (step_inv upper s e h)

theorem reachable_inv (upper : String → String) (online : Bool) (es : List (Env × Event)) :
    Inv (run upper (init online) es) :=
  run_inv upper es _ (init_inv online)

end VeltechScanner

namespace VeltechScanner

/-! ## Claims -/

/-- C1: from a fresh session, whatever sequence of ticks, verdicts (valid with
any name and identifier, invalid, or a failed call), timer expiries,
connectivity changes, slot choices and resets the application processes, no
two attendance records carry the same `vtu_number`. -/
theorem C1_at_most_one_record_per_identifier (upper : String → String) (online : Bool)
    (es : List (Env × Event)) :
    ((run upper (init online) es).attendanceRecords.map AttendanceRecord.vtu_number).Nodup :=
  (reachable_inv upper online es).records_nodup

/-- C2: from a fresh session, after every transition of every sequence of
events (scan attempts and resets included), `scannedVtuNumbers` holds exactly
the `vtu_number` values of `attendanceRecords`: every identifier of the set has
a record and every record has its identifier in the set. -/
theorem C2_set_is_identifiers_of_records (upper : String → String) (online : Bool)
    (es : List (Env × Event)) (x : String) :
    x ∈ (run upper (init online) es).scannedVtuNumbers ↔
      ∃ r ∈ (run upper (init online) es).attendanceRecords, r.vtu_number = x := by
  rw [(reachable_inv upper online es).set_eq x, List.mem_map]

end VeltechScanner

namespace VeltechScanner

theorem run_append (upper : String → String) (s : AppState) (xs ys : List (Env × Event)) :
    run upper s (xs ++ ys) = run upper (run upper s xs) ys := by
  simp [run, List.foldl_append]

theorem run_cons (upper : String → String) (s : AppState) (e : Env × Event)
    (es : List (Env × Event)) :
    run upper s (e :: es) = run upper (step upper s e) es := rfl

theorem classify_duplicate (upper : String → String) (set : List String) (r : AnalysisResult)
    (t : String) (hv : r.is_valid = some true) (ht : r.vtu_number = some t)
    (hm : normalizeVtu upper t ∈ set) :
    classify upper set (some r) = Outcome.duplicate := by
  simp [classify, hv, ht, setHas, hm]

theorem classify_valid_new (upper : String → String) (set : List String) (r : AnalysisResult)
    (t : String) (hv : r.is_valid = some true) (ht : r.vtu_number = some t)
    (hm : normalizeVtu upper t ∉ set) :
    classify upper set (some r) = Outcome.accepted r.student_name (normalizeVtu upper t) := by
  simp [classify, hv, ht, setHas, hm]

theorem resume_seen (upper : String → String) (env : Env) (i : Nat)
    (call : Option AnalysisResult) (s : AppState) (vtu : String) (h : Seen vtu s) :
    Seen vtu (captureAndProcessResume upper env i call s) := by
  cases ha : s.pendingCalls[i]? with
  | none => rw [resume_none upper env i call s ha]; exact h
  | some a =>
    obtain ⟨h1, h2, h3⟩ := h
    have hpc := resume_pendingCalls upper env i call s a ha
    have hcalls : ∀ b ∈ (captureAndProcessResume upper env i call s).pendingCalls,
        vtu ∈ b.scannedVtuNumbers := by
      intro b hb
      rw [hpc] at hb
      exact h2 b (List.mem_of_mem_eraseIdx hb)
    by_cases hacc : ∃ name v, classify upper a.scannedVtuNumbers call = Outcome.accepted name v
    · obtain ⟨name, v, ho⟩ := hacc
      obtain ⟨hr, hs⟩ := resume_accepted upper env i call s a name v ha ho
      refine ⟨?_, hcalls, ?_⟩
      · rw [hs, mem_newSet]; exact List.mem_append_left _ h1
      · rw [hr]; exact List.cons_ne_nil _ _
    · have hno : ∀ name v, classify upper a.scannedVtuNumbers call ≠ Outcome.accepted name v :=
        fun n v hh => hacc ⟨n, v, hh⟩
      obtain ⟨hr, hs, _⟩ := resume_not_accepted upper env i call s a ha hno
      exact ⟨by rw [hs]; exact h1, hcalls, by rw [hr]; exact h3⟩

theorem Seen.carry {vtu : String} {s t : AppState} (h : Seen vtu s)
    (h1 : t.attendanceRecords = s.attendanceRecords)
    (h2 : t.scannedVtuNumbers = s.scannedVtuNumbers)
    (h3 : t.pendingCalls = s.pendingCalls) : Seen vtu t := by
  unfold Seen
  rw [h1, h2, h3]
  exact h

theorem tick_seen (s : AppState) (vtu : String) (h : Seen vtu s) : Seen vtu (tick s) := by
  unfold tick
  split
  · unfold captureAndProcess
    split
    · exact h
    · split
      · exact h
      · refine ⟨h.1, ?_, h.2.2⟩
        intro b hb
        simp only [List.mem_append, List.mem_singleton] at hb
        rcases hb with hb | hb
        · exact h.2.1 b hb
        · subst hb; exact h.1
  · exact h

theorem timeoutFire_seen (i : Nat) (s : AppState) (vtu : String) (h : Seen vtu s) :
    Seen vtu (timeoutFire i s) := by
  unfold timeoutFire
  split
  · exact h
  · exact h.carry (by simp) (by simp) (by simp)

theorem step_seen (upper : String → String) (s : AppState) (e : Env × Event) (vtu : String)
    (h : Seen vtu s) (he : e.2 ≠ Event.reset true) : Seen vtu (step upper s e) := by
  unfold step
  refine Seen.carry ?_ (render_attendanceRecords _ _) (render_scannedVtuNumbers _ _)
    (render_pendingCalls _ _)
  cases hev : e.2 with
  | tick => exact tick_seen s vtu h
  | callDone i call => exact resume_seen upper e.1 i call s vtu h
  | timeout i => exact timeoutFire_seen i s vtu h
  | online => exact h.carry rfl rfl rfl
  | offline => exact h.carry rfl rfl rfl
  | selectSlot n =>
    simp only [handle, onSlotSelect]
    split
    · exact h.carry (by simp) (by simp) (by simp)
    · exact h
  | reset c =>
    cases c with
    | true => exact absurd hev he
    | false =>
      simp only [handle, handleReset]
      split
      · exact h
      · split
        · exact h
        · rename_i hc
          exfalso
          apply h.2.2
          simpa using hc

theorem run_seen (upper : String → String) (es : List (Env × Event)) (s : AppState)
    (vtu : String) (h : Seen vtu s) (hes : ∀ e ∈ es, e.2 ≠ Event.reset true) :
    Seen vtu (run upper s es) := by
  induction es generalizing s with
  | nil => exact h
  | cons e es ih =>
    rw [run_cons]
    exact ih _ (step_seen upper s e vtu h (hes e (List.mem_cons_self e es)))
      (fun e' he' => hes e' (List.mem_cons_of_mem e he'))

theorem step_callDone_session (upper : String → String) (env : Env) (i : Nat)
    (call : Option AnalysisResult) (s : AppState) (a : Attempt)
    (ha : s.pendingCalls[i]? = some a)
    (ho : ∀ name vtu, classify upper a.scannedVtuNumbers call ≠ Outcome.accepted name vtu) :
    (step upper s (env, Event.callDone i call)).session = s.session ∧
      (step upper s (env, Event.callDone i call)).localStorage = s.localStorage := by
  obtain ⟨hr, hs, hl⟩ := resume_not_accepted upper env i call s a ha ho
  have hsl := resume_selectedSlot upper env i call s
  simp only [step, handle, AppState.session, render_selectedSlot, render_attendanceRecords,
    render_scannedVtuNumbers, render_localStorage, hr, hs, hl, hsl, and_self]

/-- C3: once a valid verdict with identifier `sid` has been accepted, then after
any further events that contain no confirmed reset, a valid verdict whose
identifier `t` normalizes (upper-cased, white space removed) to the same string
is classified as Duplicate; the session (slot, records, set) is unchanged by
it, and exactly one record carries the normalized identifier. -/
theorem C3_same_normalized_identifier_is_duplicate (upper : String → String) (online : Bool)
    (es₀ es : List (Env × Event)) (env₁ env₂ : Env) (i j : Nat) (r r' : AnalysisResult)
    (a b : Attempt) (sid t : String)
    (ha : (run upper (init online) es₀).pendingCalls[i]? = some a)
    (hacc : classify upper a.scannedVtuNumbers (some r) =
      Outcome.accepted r.student_name (normalizeVtu upper sid))
    (hes : ∀ e ∈ es, e.2 ≠ Event.reset true)
    (hb : (run upper (init online)
      (es₀ ++ (env₁, Event.callDone i (some r)) :: es)).pendingCalls[j]? = some b)
    (hvalid : r'.is_valid = some true) (ht : r'.vtu_number = some t)
    (hnorm : normalizeVtu upper t = normalizeVtu upper sid) :
    classify upper b.scannedVtuNumbers (some r') = Outcome.duplicate ∧
      (step upper (run upper (init online) (es₀ ++ (env₁, Event.callDone i (some r)) :: es))
        (env₂, Event.callDone j (some r'))).session =
        (run upper (init online) (es₀ ++ (env₁, Event.callDone i (some r)) :: es)).session ∧
      ((step upper (run upper (init online) (es₀ ++ (env₁, Event.callDone i (some r)) :: es))
        (env₂, Event.callDone j (some r'))).attendanceRecords.map
          AttendanceRecord.vtu_number).count (normalizeVtu upper sid) = 1 := by
  have hinv0 := reachable_inv upper online es₀
  have hinv2 := reachable_inv upper online (es₀ ++ (env₁, Event.callDone i (some r)) :: es)
  have hseen1 : Seen (normalizeVtu upper sid)
      (step upper (run upper (init online) es₀) (env₁, Event.callDone i (some r))) := by
    obtain ⟨hc, hi, _, _⟩ := hinv0.busy_call ha
    obtain ⟨hr, hs⟩ := resume_accepted upper env₁ i (some r) _ a _ _ ha hacc
    have hpc := resume_pendingCalls upper env₁ i (some r) _ a ha
    refine ⟨?_, ?_, ?_⟩
    · simp only [step, handle, render_scannedVtuNumbers, hs, mem_newSet]
      simp
    · intro c hcmem
      have hnil : (step upper (run upper (init online) es₀)
          (env₁, Event.callDone i (some r))).pendingCalls = [] := by
        simp only [step, handle, render_pendingCalls]
        rw [hpc, hc, hi]
        rfl
      rw [hnil] at hcmem
      cases hcmem
    · simp only [step, handle, render_attendanceRecords, hr]
      exact List.cons_ne_nil _ _
  have hseen2 : Seen (normalizeVtu upper sid)
      (run upper (init online) (es₀ ++ (env₁, Event.callDone i (some r)) :: es)) := by
    rw [run_append, run_cons]
    exact run_seen upper es _ _ hseen1 hes
  have hmem : normalizeVtu upper t ∈ b.scannedVtuNumbers := by
    rw [hnorm]
    exact hseen2.2.1 b (List.getElem?_mem hb)
  have hdup := classify_duplicate upper b.scannedVtuNumbers r' t hvalid ht hmem
  have hsess := (step_callDone_session upper env₂ j (some r') _ b hb
    (by intro n v hh; rw [hdup] at hh; cases hh)).1
  refine ⟨hdup, hsess, ?_⟩
  have hrec : (step upper (run upper (init online)
      (es₀ ++ (env₁, Event.callDone i (some r)) :: es))
        (env₂, Event.callDone j (some r'))).attendanceRecords =
      (run upper (init online) (es₀ ++ (env₁, Event.callDone i (some r)) :: es)).attendanceRecords :=
    congrArg Session.attendanceRecords hsess
  rw [hrec]
  exact List.count_eq_one_of_mem hinv2.records_nodup ((hinv2.set_eq _).mp hseen2.1)

end VeltechScanner

namespace VeltechScanner

/-- C3 at the example of the claim: "vtu 1023" is accepted, then "Vtu 10 23"
is a Duplicate and one record exists. -/
theorem C3_same_normalized_identifier_is_duplicate_witness :
    classify asciiUpper ["VTU1023"] (some (validVerdict "A. Kumar" "Vtu 10 23")) =
        Outcome.duplicate ∧
      (step asciiUpper (run asciiUpper (init true)
        (demoStart ++ (demoEnv, Event.callDone 0 (some (validVerdict "A. Kumar" "vtu 1023"))) ::
          demoNext))
        (demoEnv, Event.callDone 0 (some (validVerdict "A. Kumar" "Vtu 10 23")))).session =
        (run asciiUpper (init true)
          (demoStart ++ (demoEnv, Event.callDone 0 (some (validVerdict "A. Kumar" "vtu 1023"))) ::
            demoNext)).session ∧
      ((step asciiUpper (run asciiUpper (init true)
        (demoStart ++ (demoEnv, Event.callDone 0 (some (validVerdict "A. Kumar" "vtu 1023"))) ::
          demoNext))
        (demoEnv, Event.callDone 0 (some (validVerdict "A. Kumar" "Vtu 10 23")))).attendanceRecords.map
          AttendanceRecord.vtu_number).count (normalizeVtu asciiUpper "vtu 1023") = 1 :=
  C3_same_normalized_identifier_is_duplicate asciiUpper true demoStart demoNext demoEnv demoEnv
    0 0 (validVerdict "A. Kumar" "vtu 1023") (validVerdict "A. Kumar" "Vtu 10 23")
    ⟨1, [], "Morning Session"⟩ ⟨1, ["VTU1023"], "Morning Session"⟩ "vtu 1023" "Vtu 10 23"
    (by decide) (by decide) (by decide) (by decide) rfl rfl (by decide)

end VeltechScanner

namespace VeltechScanner

theorem render_of_mounted (before after : AppState) (h : before.scannerMounted = true) :
    render before after = after := by
  simp [render, h]

theorem tick_start (s : AppState) (slot : String) (hslot : s.selectedSlot = some slot)
    (hm : s.scannerMounted = true) (hr : s.scanStatus = ScanStatus.ready)
    (hp : s.isProcessing = false) :
    tick s = { s with isProcessing := true, scanStatus := ScanStatus.scanning,
                      statusMessage := "Scanning ID card...",
                      pendingCalls := s.pendingCalls ++
                        [⟨s.scannerId, s.scannedVtuNumbers, slot⟩] } := by
  simp [tick, captureAndProcess, hslot, hm, hr, hp]

theorem resume_scanStatus (upper : String → String) (env : Env) (i : Nat)
    (call : Option AnalysisResult) (s : AppState) (a : Attempt)
    (h : s.pendingCalls[i]? = some a) (hm : s.scannerMounted = true)
    (ho : a.owner = s.scannerId) :
    (captureAndProcessResume upper env i call s).scanStatus =
      (classify upper a.scannedVtuNumbers call).status := by
  have hm2 : ({ s with pendingCalls := s.pendingCalls.eraseIdx i } : AppState).scannerMounted
      = true := hm
  simp only [captureAndProcessResume, h]
  cases classify upper a.scannedVtuNumbers call <;>
    simp [handleScanResult, setScanner, hm2, ho]

/-- An attempt that starts on a ready, idle scanner and settles right away with
a valid verdict for a new identifier. -/
theorem tick_then_valid_verdict (upper : String → String) (online : Bool)
    (es : List (Env × Event)) (s : AppState) (env₁ env₂ : Env) (r : AnalysisResult)
    (raw slot : String)
    (hs : s = run upper (init online) es)
    (hslot : s.selectedSlot = some slot) (hm : s.scannerMounted = true)
    (hready : s.scanStatus = ScanStatus.ready) (hidle : s.isProcessing = false)
    (hvalid : r.is_valid = some true) (hraw : r.vtu_number = some raw)
    (hnew : normalizeVtu upper raw ∉ s.scannedVtuNumbers) :
    classify upper s.scannedVtuNumbers (some r) =
        Outcome.accepted r.student_name (normalizeVtu upper raw) ∧
      (run upper s [(env₁, Event.tick), (env₂, Event.callDone 0 (some r))]).scanStatus =
        ScanStatus.success ∧
      (run upper s [(env₁, Event.tick), (env₂, Event.callDone 0 (some r))]).attendanceRecords =
        { student_name := r.student_name, vtu_number := normalizeVtu upper raw,
          slot_name := slot, scan_date := beforeT env₂.isoNow, scan_time := env₂.localeTime } ::
          s.attendanceRecords ∧
      (run upper s [(env₁, Event.tick), (env₂, Event.callDone 0 (some r))]).scannedVtuNumbers =
        s.scannedVtuNumbers ++ [normalizeVtu upper raw] ∧
      (run upper s [(env₁, Event.tick), (env₂, Event.callDone 0 (some r))]).selectedSlot =
        some slot := by
  have hinv : Inv s := hs ▸ reachable_inv upper online es
  obtain ⟨hc, _⟩ := hinv.idle hidle
  have hcl := classify_valid_new upper s.scannedVtuNumbers r raw hvalid hraw hnew
  have htick : step upper s (env₁, Event.tick) =
      { s with isProcessing := true, scanStatus := ScanStatus.scanning,
               statusMessage := "Scanning ID card...",
               pendingCalls := [⟨s.scannerId, s.scannedVtuNumbers, slot⟩] } := by
    simp only [step, handle]
    rw [render_of_mounted _ _ hm, tick_start s slot hslot hm hready hidle, hc]
    rfl
  have hrun : run upper s [(env₁, Event.tick), (env₂, Event.callDone 0 (some r))] =
      step upper (step upper s (env₁, Event.tick)) (env₂, Event.callDone 0 (some r)) := rfl
  obtain ⟨st, hst⟩ : ∃ st : AppState, st = step upper s (env₁, Event.tick) := ⟨_, rfl⟩
  rw [hrun, ← hst]
  rw [htick] at hst
  have hsr : st.attendanceRecords = s.attendanceRecords := by rw [hst]
  have hss : st.scannedVtuNumbers = s.scannedVtuNumbers := by rw [hst]
  have hsl : st.selectedSlot = s.selectedSlot := by rw [hst]
  have hsm : st.scannerMounted = true := by rw [hst]; exact hm
  have ha : st.pendingCalls[0]? = some ⟨s.scannerId, s.scannedVtuNumbers, slot⟩ := by
    rw [hst]; rfl
  have hid : (⟨s.scannerId, s.scannedVtuNumbers, slot⟩ : Attempt).owner = st.scannerId := by
    rw [hst]
  obtain ⟨hr1, hr2⟩ := resume_accepted upper env₂ 0 (some r) st _ _ _ ha hcl
  have hstat := resume_scanStatus upper env₂ 0 (some r) st _ ha hsm hid
  have hslot2 := resume_selectedSlot upper env₂ 0 (some r) st
  refine ⟨hcl, ?_, ?_, ?_, ?_⟩
  · simp only [step, handle]
    rw [render_of_mounted _ _ hsm, hstat, hcl]
    rfl
  · simp only [step, handle, render_attendanceRecords]
    rw [hr1, hsr]
  · simp only [step, handle, render_scannedVtuNumbers]
    rw [hr2, hss]
    apply newSet_of_nodup
    exact List.Nodup.append hinv.set_nodup (List.nodup_singleton _) (by simpa using hnew)
  · simp only [step, handle, render_selectedSlot]
    rw [hslot2, hsl, hslot]

end VeltechScanner

namespace VeltechScanner

end VeltechScanner

namespace VeltechScanner

theorem render_session (a b : AppState) : (render a b).session = b.session := by
  simp [AppState.session]

theorem tick_session (s : AppState) : (tick s).session = s.session := by
  unfold tick
  split
  · unfold captureAndProcess
    split
    · rfl
    · split <;> rfl
  · rfl

theorem timeoutFire_session (i : Nat) (s : AppState) : (timeoutFire i s).session = s.session := by
  unfold timeoutFire
  split
  · rfl
  · simp [AppState.session]

/-- C5: an attempt whose outcome is Rejected, Duplicate or CallFailed leaves
the session as it was: `selectedSlot`, `attendanceRecords` and
`scannedVtuNumbers` (and the stored session) are the same after the call
settles as before it; the tick that starts an attempt and the timer that ends
it never change them either. -/
theorem C5_failed_outcomes_leave_session_unchanged (upper : String → String) (env : Env)
    (s : AppState) (i : Nat) (call : Option AnalysisResult) (a : Attempt)
    (ha : s.pendingCalls[i]? = some a)
    (ho : (∃ m, classify upper a.scannedVtuNumbers call = Outcome.rejected m) ∨
      classify upper a.scannedVtuNumbers call = Outcome.duplicate ∨
      classify upper a.scannedVtuNumbers call = Outcome.callFailed) :
    (step upper s (env, Event.callDone i call)).session = s.session ∧
      (step upper s (env, Event.callDone i call)).localStorage = s.localStorage ∧
      (step upper s (env, Event.tick)).session = s.session ∧
      ∀ k, (step upper s (env, Event.timeout k)).session = s.session := by
  have hno : ∀ name vtu, classify upper a.scannedVtuNumbers call ≠ Outcome.accepted name vtu := by
    intro n v hh
    rcases ho with ⟨m, hm⟩ | hd | hf
    · rw [hm] at hh; cases hh
    · rw [hd] at hh; cases hh
    · rw [hf] at hh; cases hh
  obtain ⟨h1, h2⟩ := step_callDone_session upper env i call s a ha hno
  refine ⟨h1, h2, ?_, ?_⟩
  · simp only [step, handle, render_session, tick_session]
  · intro k
    simp only [step, handle, render_session, timeoutFire_session]

/-- C5 at a failed call on the first attempt of a session. -/
theorem C5_failed_outcomes_leave_session_unchanged_witness :
    (step asciiUpper (run asciiUpper (init true) demoStart)
        (demoEnv, Event.callDone 0 none)).session =
      ⟨some "Morning Session", [], []⟩ :=
  (C5_failed_outcomes_leave_session_unchanged asciiUpper demoEnv
    (run asciiUpper (init true) demoStart) 0 none ⟨1, [], "Morning Session"⟩
    (by decide) (Or.inr (Or.inr rfl))).1

end VeltechScanner

namespace VeltechScanner

/-! ## Persistence -/

theorem readRecord_recordToJson (r : AttendanceRecord) :
    readRecord (recordToJson r) = some r := by
  obtain ⟨name, vtu, slot, d, t⟩ := r
  cases name <;> simp [readRecord, recordToJson, Json.get, readString, List.find?]

theorem readAll_records (rs : List AttendanceRecord) :
    readAll readRecord (rs.map recordToJson) = some rs := by
  induction rs with
  | nil => rfl
  | cons r rs ih => simp [readAll, readRecord_recordToJson, ih]

theorem readAll_strings (ids : List String) :
    readAll (fun v => readString (some v)) (ids.map Json.str) = some ids := by
  induction ids with
  | nil => rfl
  | cons x xs ih =>
    simp only [List.map_cons, readAll, ih]
    rfl

theorem loadEffect_sessionToJson (slot : String) (recs : List AttendanceRecord)
    (ids : List String) (lastSaved : String) (h : truthyStr slot = true) :
    loadEffect (sessionToJson slot recs ids lastSaved) =
      LoadResult.restored ⟨some slot, recs, newSet ids⟩ := by
  simp [loadEffect, sessionToJson, Json.get, List.find?, h, readArrayOrEmpty,
    readAll_records, readAll_strings]

/-- C6: for a session with a chosen slot (a non-empty string), any records and
its identifier set, when the write to storage succeeds, what the save effect
stores (`saveSession` with the set turned into an array) is read back by
`loadSession` and the load effect as the same `selectedSlot`, the same records
in the same order and the same identifier set. -/
theorem C6_reload_round_trip (env : Env) (s : AppState) (slot : String)
    (hslot : s.selectedSlot = some slot) (hchosen : truthyStr slot = true)
    (hset : s.scannedVtuNumbers.Nodup) (hwrite : env.setItemThrows = false) :
    loadEffect (OfflineStorage.loadSession (saveEffect env s).localStorage) =
      LoadResult.restored s.session := by
  have hsave : (saveEffect env s).localStorage =
      some (sessionToJson slot s.attendanceRecords s.scannedVtuNumbers env.isoSaved) := by
    simp [saveEffect, hslot, hchosen, OfflineStorage.saveSession, hwrite, arrayFrom]
  rw [hsave]
  simp only [OfflineStorage.loadSession]
  rw [loadEffect_sessionToJson _ _ _ _ hchosen, newSet_of_nodup _ hset]
  simp [AppState.session, hslot]

end VeltechScanner

namespace VeltechScanner

/-- C6 at a session with one accepted record: the stored session is read back
as the slot, the record and the identifier. -/
theorem C6_reload_round_trip_witness :
    loadEffect (OfflineStorage.loadSession (saveEffect demoEnv
        (run asciiUpper (init true) (demoStart ++
          [(demoEnv, Event.callDone 0 (some (validVerdict "A. Kumar" "vtu 1023")))]))).localStorage) =
      LoadResult.restored ⟨some "Morning Session",
        [{ student_name := some "A. Kumar", vtu_number := "VTU1023",
           slot_name := "Morning Session", scan_date := "2026-01-02", scan_time := "10:11 AM" }],
        ["VTU1023"]⟩ :=
  C6_reload_round_trip demoEnv
    (run asciiUpper (init true) (demoStart ++
      [(demoEnv, Event.callDone 0 (some (validVerdict "A. Kumar" "vtu 1023")))]))
    "Morning Session" (by decide) (by decide) (by decide) rfl

/-! ## One attempt at a time -/

theorem handleScanResult_isProcessing (env : Env) (slot : String) (n : Option String)
    (v : String) (s : AppState) :
    (handleScanResult env slot n v s).isProcessing = s.isProcessing := rfl

theorem handle_pendingCalls_grow (upper : String → String) (env : Env) (s : AppState)
    (ev : Event)
    (h : s.pendingCalls.length < (handle upper env s ev).pendingCalls.length) :
    ev = Event.tick ∧ s.isProcessing = false ∧ (handle upper env s ev).isProcessing = true ∧
      (handle upper env s ev).pendingCalls.length = s.pendingCalls.length + 1 := by
  cases ev with
  | tick =>
    simp only [handle] at h ⊢
    by_cases hc : (s.scannerMounted && !s.isProcessing && s.scanStatus == ScanStatus.ready) = true
    · simp only [Bool.and_eq_true, Bool.not_eq_true', beq_iff_eq] at hc
      obtain ⟨⟨hm, hp⟩, hr⟩ := hc
      cases hs : s.selectedSlot with
      | none => simp [tick, hm, hp, hr, captureAndProcess, hs] at h
      | some slot => simp [tick, hm, hp, hr, captureAndProcess, hs]
    · simp [tick, hc] at h
  | callDone i call =>
    exfalso
    simp only [handle] at h
    cases ha : s.pendingCalls[i]? with
    | none => rw [resume_none upper env i call s ha] at h; omega
    | some a =>
      rw [resume_pendingCalls upper env i call s a ha] at h
      have := List.length_eraseIdx_le s.pendingCalls i
      omega
  | timeout i =>
    exfalso
    simp only [handle, timeoutFire] at h
    split at h
    · omega
    · simp at h
  | online => exfalso; simp [handle] at h
  | offline => exfalso; simp [handle] at h
  | selectSlot n =>
    exfalso
    simp only [handle, onSlotSelect] at h
    split at h
    · simp at h
    · omega
  | reset c =>
    exfalso
    simp only [handle, handleReset] at h
    split at h
    · omega
    · split at h
      · omega
      · simp at h

theorem handle_isProcessing_cleared (upper : String → String) (env : Env) (s : AppState)
    (ev : Event) (hinv : Inv s) (h1 : s.isProcessing = true)
    (h2 : (handle upper env s ev).isProcessing = false) :
    ∃ k t, ev = Event.timeout k ∧ s.pendingTimeouts = [t] ∧ s.pendingCalls = [] ∧
      (handle upper env s ev).pendingTimeouts = [] ∧
      (handle upper env s ev).pendingCalls = [] := by
  cases ev with
  | tick =>
    exfalso
    simp [handle, tick, h1] at h2
  | callDone i call =>
    exfalso
    simp only [handle] at h2
    rw [resume_isProcessing, h1] at h2
    cases h2
  | timeout i =>
    simp only [handle, timeoutFire] at h2 ⊢
    cases ht : s.pendingTimeouts[i]? with
    | none => simp [ht, h1] at h2
    | some t =>
      obtain ⟨hh1, hh2, hh3, _⟩ := hinv.busy_timeout ht
      refine ⟨i, t, rfl, hh1, hh3, ?_, ?_⟩
      · subst hh2
        simp [hh1]
      · simp [hh3]
  | online => exfalso; simp [handle, h1] at h2
  | offline => exfalso; simp [handle, h1] at h2
  | selectSlot n =>
    exfalso
    simp only [handle, onSlotSelect] at h2
    split at h2
    · simp [h1] at h2
    · simp [h1] at h2
  | reset c =>
    exfalso
    simp only [handle, handleReset] at h2
    split at h2
    · simp [h1] at h2
    · split at h2
      · simp [h1] at h2
      · simp [h1] at h2

/-- C7: in every state reached from `init` by any sequence of events (ticks,
call completions, timer expiries, online and offline events, slot choices,
resets) at most one attempt is in flight (one outstanding call or one
outstanding return-to-ready timer, never both), and `isProcessing` is set
exactly then.  An event starts a call only if it is a tick with `isProcessing`
false, and it sets `isProcessing`; `isProcessing` goes from set to clear only
when the one outstanding timer, the attempt's own, fires. -/
theorem C7_at_most_one_attempt_in_flight (upper : String → String) (online : Bool)
    (es : List (Env × Event)) (e : Env × Event) :
    (run upper (init online) es).pendingCalls.length +
        (run upper (init online) es).pendingTimeouts.length ≤ 1 ∧
      ((run upper (init online) es).isProcessing = true ↔
        (run upper (init online) es).pendingCalls.length +
          (run upper (init online) es).pendingTimeouts.length = 1) ∧
      ((run upper (init online) es).pendingCalls.length <
          (step upper (run upper (init online) es) e).pendingCalls.length →
        e.2 = Event.tick ∧ (run upper (init online) es).isProcessing = false ∧
          (step upper (run upper (init online) es) e).isProcessing = true ∧
          (run upper (init online) es).pendingCalls = [] ∧
          (run upper (init online) es).pendingTimeouts = []) ∧
      ((run upper (init online) es).isProcessing = true →
        (step upper (run upper (init online) es) e).isProcessing = false →
        ∃ k t, e.2 = Event.timeout k ∧ (run upper (init online) es).pendingTimeouts = [t] ∧
          (run upper (init online) es).pendingCalls = [] ∧
          (step upper (run upper (init online) es) e).pendingTimeouts = [] ∧
          (step upper (run upper (init online) es) e).pendingCalls = []) := by
  have hinv := reachable_inv upper online es
  generalize run upper (init online) es = s at hinv ⊢
  have hf := hinv.in_flight
  refine ⟨?_, ?_, ?_, ?_⟩
  · rw [hf]; split <;> omega
  · rw [hf]
    cases s.isProcessing <;> simp
  · intro hgrow
    simp only [step, render_pendingCalls, render_isProcessing] at hgrow ⊢
    obtain ⟨h1, h2, h3, _⟩ := handle_pendingCalls_grow upper e.1 s e.2 hgrow
    obtain ⟨h4, h5⟩ := hinv.idle h2
    exact ⟨h1, h2, h3, h4, h5⟩
  · intro h1 h2
    simp only [step, render_pendingCalls, render_isProcessing, render_pendingTimeouts] at h2 ⊢
    exact handle_isProcessing_cleared upper e.1 s e.2 hinv h1 h2

end VeltechScanner

namespace VeltechScanner

/-! ## Connectivity -/

theorem render_self (s : AppState) : render s s = s := by
  simp [render]

theorem mounted_of (s : AppState) (slot : String) (hslot : s.selectedSlot = some slot)
    (hch : truthyStr slot = true) (hon : s.isOnline = true) : s.scannerMounted = true := by
  simp [AppState.scannerMounted, truthy, hslot, hch, hon]

/-- C8: while `isOnline` is false a tick changes nothing, so no attempt
starts.  With a session on `slot`, `isOnline` true, the scanner ready and no
attempt in flight, a tick starts an attempt (a call is outstanding,
`isProcessing` is set, the status is `scanning`); and from an offline idle
state, the `online` event followed by a tick starts an attempt. -/
theorem C8_offline_guard (upper : String → String) (env₁ env₂ : Env) (s : AppState) :
    (s.isOnline = false → step upper s (env₁, Event.tick) = s) ∧
      (∀ slot, s.selectedSlot = some slot → truthyStr slot = true → s.isProcessing = false →
        s.isOnline = true → s.scanStatus = ScanStatus.ready →
        (step upper s (env₁, Event.tick)).pendingCalls =
            s.pendingCalls ++ [⟨s.scannerId, s.scannedVtuNumbers, slot⟩] ∧
          (step upper s (env₁, Event.tick)).isProcessing = true ∧
          (step upper s (env₁, Event.tick)).scanStatus = ScanStatus.scanning) ∧
      (∀ slot, s.selectedSlot = some slot → truthyStr slot = true → s.isProcessing = false →
        s.isOnline = false →
        (run upper s [(env₁, Event.online), (env₂, Event.tick)]).pendingCalls =
            s.pendingCalls ++ [⟨s.scannerId + 1, s.scannedVtuNumbers, slot⟩] ∧
          (run upper s [(env₁, Event.online), (env₂, Event.tick)]).isProcessing = true ∧
          (run upper s [(env₁, Event.online), (env₂, Event.tick)]).isOnline = true) := by
  refine ⟨?_, ?_, ?_⟩
  · intro hoff
    have hnm : s.scannerMounted = false := by simp [AppState.scannerMounted, hoff]
    simp only [step, handle, tick, hnm, Bool.false_and, Bool.false_eq_true, if_false]
    exact render_self s
  · intro slot hslot hch hidle hon hready
    have hm := mounted_of s slot hslot hch hon
    simp only [step, handle]
    rw [render_of_mounted _ _ hm, tick_start s slot hslot hm hready hidle]
    exact ⟨rfl, rfl, rfl⟩
  · intro slot hslot hch hidle hoff
    have hnm : s.scannerMounted = false := by simp [AppState.scannerMounted, hoff]
    have hrun : run upper s [(env₁, Event.online), (env₂, Event.tick)] =
        step upper (step upper s (env₁, Event.online)) (env₂, Event.tick) := rfl
    have hm1 : ({ s with isOnline := true } : AppState).scannerMounted = true := by
      simp [AppState.scannerMounted, truthy, hslot, hch]
    have hon : step upper s (env₁, Event.online) =
        { s with isOnline := true, scannerId := s.scannerId + 1,
                 scanStatus := ScanStatus.ready,
                 statusMessage := "Position ID card in frame" } := by
      simp only [step, handle, render, hnm, hm1]
      rfl
    obtain ⟨st, hst⟩ : ∃ st : AppState, st = step upper s (env₁, Event.online) := ⟨_, rfl⟩
    rw [hrun, ← hst]
    rw [hon] at hst
    have h1 : st.selectedSlot = some slot := by rw [hst]; exact hslot
    have h2 : st.isOnline = true := by rw [hst]
    have h3 : st.scanStatus = ScanStatus.ready := by rw [hst]
    have h4 : st.isProcessing = false := by rw [hst]; exact hidle
    have hm := mounted_of st slot h1 hch h2
    simp only [step, handle]
    rw [render_of_mounted _ _ hm, tick_start st slot h1 hm h3 h4]
    rw [hst]
    exact ⟨rfl, rfl, rfl⟩

/-- C8 on a started session that is offline: a tick changes nothing, and after
the `online` event the next tick starts an attempt. -/
theorem C8_offline_guard_witness :
    (run asciiUpper (init false)
        [(demoEnv, Event.selectSlot "Morning Session"), (demoEnv, Event.tick)]).pendingCalls = [] ∧
      (run asciiUpper (init false)
        [(demoEnv, Event.selectSlot "Morning Session"), (demoEnv, Event.online),
         (demoEnv, Event.tick)]).pendingCalls = [⟨1, [], "Morning Session"⟩] :=
  have h := C8_offline_guard asciiUpper demoEnv demoEnv
    (run asciiUpper (init false) [(demoEnv, Event.selectSlot "Morning Session")])
  ⟨congrArg AppState.pendingCalls (h.1 (by decide)),
    (h.2.2 "Morning Session" (by decide) (by decide) (by decide) (by decide)).1⟩

end VeltechScanner

namespace VeltechScanner

/-! ## Responses with a field missing -/

/-- C9 as stated fails: a response without `is_valid` is classified Rejected
(status `invalid`), not CallFailed; and a response flagged valid without
`student_name` is Accepted (status `success`) and a record with no name is
created. -/
theorem C9_missing_field_counterexample :
    missingRequired unflaggedVerdict = true ∧
      classify asciiUpper [] (some unflaggedVerdict) = Outcome.rejected "Invalid ID Card" ∧
      missingRequired namelessVerdict = true ∧
      classify asciiUpper [] (some namelessVerdict) = Outcome.accepted none "VTU1023" ∧
      (run asciiUpper (init true)
        (demoStart ++ [(demoEnv, Event.callDone 0 (some namelessVerdict))])).scanStatus =
        ScanStatus.success ∧
      (run asciiUpper (init true)
        (demoStart ++ [(demoEnv, Event.callDone 0 (some namelessVerdict))])).attendanceRecords =
        [{ student_name := none, vtu_number := "VTU1023", slot_name := "Morning Session",
           scan_date := "2026-01-02", scan_time := "10:11 AM" }] := by
  decide

/-! ## Export -/

theorem intercalate_go_eq (sep : String) (l : List String) (acc x : String) :
    String.intercalate.go (acc ++ x) sep l = acc ++ jsJoin sep (x :: l) := by
  induction l generalizing acc x with
  | nil => simp [String.intercalate.go, jsJoin]
  | cons y l ih =>
    have h := ih (acc ++ x ++ sep) y
    simp only [String.intercalate.go, jsJoin, String.append_assoc] at h ⊢
    exact h

theorem jsJoin_eq_intercalate (sep : String) (l : List String) :
    jsJoin sep l = String.intercalate sep l := by
  cases l with
  | nil => rfl
  | cons x l =>
    have h := intercalate_go_eq sep l "" x
    simp only [String.empty_append] at h
    simp only [String.intercalate, h]

theorem csvRow_eq_specRow (r : AttendanceRecord) : csvRow r = specRow r := by
  have e : ("\",\"" : String) = "\"" ++ ("," ++ "\"") := by decide
  simp only [csvRow, specRow, csvFields, quoted, List.map, String.intercalate,
    String.intercalate.go]
  rw [e]
  simp only [String.append_assoc]

/-- The text of `exportCSV` in terms of `specLines`. -/
theorem exportCSV_eq_specLines (records : List AttendanceRecord) :
    exportCSV records = String.intercalate "\n" (specLines records) ∧
      (specLines records).length = records.length + 1 ∧
      (specLines records)[0]? = some "Name,VTU Number,Slot,Date,Time" ∧
      (∀ i r, records[i]? = some r →
        (specLines records)[i + 1]? =
          some (String.intercalate ","
            [quoted (templateStr r.student_name), quoted r.vtu_number, quoted r.slot_name,
             quoted r.scan_date, quoted r.scan_time])) := by
  refine ⟨?_, ?_, ?_, ?_⟩
  · have hrows : records.map csvRow = records.map specRow :=
      List.map_congr_left (fun r _ => csvRow_eq_specRow r)
    have hh : jsJoin "," ["Name", "VTU Number", "Slot", "Date", "Time"] = csvHeader := by decide
    simp only [exportCSV, specLines, hrows, hh, jsJoin_eq_intercalate]
  · simp [specLines]
  · simp [specLines, csvHeader]
  · intro i r hr
    simp [specLines, hr, specRow, csvFields]

end VeltechScanner

namespace VeltechScanner

/-! ## Reset -/

theorem resume_localStorage_of_no_slot (upper : String → String) (env : Env) (i : Nat)
    (call : Option AnalysisResult) (s : AppState) (h : s.selectedSlot = none) :
    (captureAndProcessResume upper env i call s).localStorage = s.localStorage := by
  unfold captureAndProcessResume
  split
  · rfl
  · rename_i a _
    cases classify upper a.scannedVtuNumbers call <;>
      simp [handleScanResult, saveEffect, h]

theorem step_keeps_cleared (upper : String → String) (s : AppState) (e : Env × Event)
    (h1 : s.selectedSlot = none) (h2 : s.localStorage = none)
    (he : ∀ n, e.2 ≠ Event.selectSlot n) :
    (step upper s e).selectedSlot = none ∧ (step upper s e).localStorage = none := by
  simp only [step, render_selectedSlot, render_localStorage]
  cases hev : e.2 with
  | tick =>
    have hnm : s.scannerMounted = false := by simp [AppState.scannerMounted, truthy, h1]
    simp [handle, tick, hnm, h1, h2]
  | callDone i call =>
    simp only [handle]
    rw [resume_selectedSlot, resume_localStorage_of_no_slot upper e.1 i call s h1]
    exact ⟨h1, h2⟩
  | timeout i =>
    simp only [handle, timeoutFire]
    split
    · exact ⟨h1, h2⟩
    · simp [h1, h2]
  | online => exact ⟨h1, h2⟩
  | offline => exact ⟨h1, h2⟩
  | selectSlot n => exact absurd hev (he n)
  | reset c => simp [handle, handleReset, truthy, h1, h2]

theorem run_keeps_cleared (upper : String → String) (es : List (Env × Event)) (s : AppState)
    (h1 : s.selectedSlot = none) (h2 : s.localStorage = none)
    (hes : ∀ e ∈ es, ∀ n, e.2 ≠ Event.selectSlot n) :
    (run upper s es).selectedSlot = none ∧ (run upper s es).localStorage = none := by
  induction es generalizing s with
  | nil => exact ⟨h1, h2⟩
  | cons e es ih =>
    rw [run_cons]
    obtain ⟨h3, h4⟩ := step_keeps_cleared upper s e h1 h2 (hes e (List.mem_cons_self e es))
    exact ih _ h3 h4 (fun e' he' => hes e' (List.mem_cons_of_mem e he'))

/-- C11: with a session in progress, a reset that goes through (no records,
or the confirmation accepted) leaves `selectedSlot` absent, `attendanceRecords`
empty, `scannedVtuNumbers` empty and the storage key removed; through any
later events up to the next slot choice the save effect writes nothing, so
`loadSession` returns `null` and the load effect restores no session.  A reset
whose confirmation is declined leaves the whole state, the in-memory session
and the stored session included, as it was. -/
theorem C11_reset_clears_session_and_storage (upper : String → String) (env : Env)
    (s : AppState) (c : Bool) (es : List (Env × Event))
    (hslot : truthy s.selectedSlot = true) :
    ((s.attendanceRecords = [] ∨ c = true) →
        (step upper s (env, Event.reset c)).session = ⟨none, [], []⟩ ∧
        (step upper s (env, Event.reset c)).localStorage = none ∧
        ((∀ e ∈ es, ∀ n, e.2 ≠ Event.selectSlot n) →
          (run upper (step upper s (env, Event.reset c)) es).selectedSlot = none ∧
          (run upper (step upper s (env, Event.reset c)) es).localStorage = none ∧
          OfflineStorage.loadSession
            (run upper (step upper s (env, Event.reset c)) es).localStorage = Json.null ∧
          loadEffect (OfflineStorage.loadSession
            (run upper (step upper s (env, Event.reset c)) es).localStorage) =
            LoadResult.noSession)) ∧
      ((s.attendanceRecords ≠ [] ∧ c = false) → step upper s (env, Event.reset c) = s) := by
  constructor
  · intro hgo
    have hcond : (s.attendanceRecords.length != 0 && !c) = false := by
      rcases hgo with h | h
      · simp [h]
      · simp [h]
    have hsess : (step upper s (env, Event.reset c)).session = ⟨none, [], []⟩ := by
      simp [step, handle, handleReset, hslot, hcond, AppState.session]
    have hsto : (step upper s (env, Event.reset c)).localStorage = none := by
      simp [step, handle, handleReset, hslot, hcond, saveEffect,
        OfflineStorage.clearSession]
    refine ⟨hsess, hsto, ?_⟩
    intro hes
    have hnone : (step upper s (env, Event.reset c)).selectedSlot = none :=
      congrArg Session.selectedSlot hsess
    obtain ⟨h3, h4⟩ := run_keeps_cleared upper es _ hnone hsto hes
    refine ⟨h3, h4, ?_, ?_⟩
    · rw [h4]; rfl
    · rw [h4]; rfl
  · rintro ⟨hrec, hc⟩
    have hlen : s.attendanceRecords.length ≠ 0 := by
      intro h
      exact hrec (List.length_eq_zero.mp h)
    subst hc
    have hcond : (s.attendanceRecords.length != 0 && !false) = true := by
      simp [hlen]
    have hh : handleReset env false s = s := by
      simp only [handleReset, hslot, hcond, Bool.not_true, Bool.false_eq_true, if_false, if_true]
    simp only [step, handle, hh]
    exact render_self s


/-- C11 on a session with one accepted record: the confirmed reset empties the
session and the storage, nothing is stored when the attempt's timer fires
afterwards, and the declined reset keeps the session. -/
theorem C11_reset_clears_session_and_storage_witness :
    (step asciiUpper (run asciiUpper (init true) (demoStart ++
        [(demoEnv, Event.callDone 0 (some (validVerdict "A. Kumar" "vtu 1023")))]))
        (demoEnv, Event.reset true)).session = ⟨none, [], []⟩ ∧
      loadEffect (OfflineStorage.loadSession
        (run asciiUpper (step asciiUpper (run asciiUpper (init true) (demoStart ++
          [(demoEnv, Event.callDone 0 (some (validVerdict "A. Kumar" "vtu 1023")))]))
          (demoEnv, Event.reset true)) [(demoEnv, Event.timeout 0)]).localStorage) =
        LoadResult.noSession ∧
      (step asciiUpper (run asciiUpper (init true) (demoStart ++
        [(demoEnv, Event.callDone 0 (some (validVerdict "A. Kumar" "vtu 1023")))]))
        (demoEnv, Event.reset false)).session =
        ⟨some "Morning Session",
          [{ student_name := some "A. Kumar", vtu_number := "VTU1023",
             slot_name := "Morning Session", scan_date := "2026-01-02",
             scan_time := "10:11 AM" }],
          ["VTU1023"]⟩ :=
  have h := C11_reset_clears_session_and_storage asciiUpper demoEnv
    (run asciiUpper (init true) (demoStart ++
      [(demoEnv, Event.callDone 0 (some (validVerdict "A. Kumar" "vtu 1023")))]))
    true [(demoEnv, Event.timeout 0)] (by decide)
  have h' := C11_reset_clears_session_and_storage asciiUpper demoEnv
    (run asciiUpper (init true) (demoStart ++
      [(demoEnv, Event.callDone 0 (some (validVerdict "A. Kumar" "vtu 1023")))]))
    false [] (by decide)
  ⟨(h.1 (Or.inr rfl)).1, ((h.1 (Or.inr rfl)).2.2 (by
      intro e he n hn
      rw [List.mem_singleton] at he
      subst he
      cases hn)).2.2.2,
    congrArg AppState.session (h'.2 ⟨by decide, rfl⟩)⟩

end VeltechScanner

namespace VeltechScanner

/-! ## The export determines the records -/

theorem split_at_char (c : Char) (a b x y : List Char) (ha : c ∉ a) (hb : c ∉ b)
    (h : a ++ c :: x = b ++ c :: y) : a = b ∧ x = y := by
  induction a generalizing b with
  | nil =>
    cases b with
    | nil => simpa using h
    | cons d b =>
      exfalso
      simp only [List.nil_append, List.cons_append, List.cons.injEq] at h
      apply hb
      rw [h.1]
      exact List.mem_cons_self d b
  | cons e a ih =>
    cases b with
    | nil =>
      exfalso
      simp only [List.nil_append, List.cons_append, List.cons.injEq] at h
      apply ha
      rw [← h.1]
      exact List.mem_cons_self e a
    | cons d b =>
      simp only [List.cons_append, List.cons.injEq] at h
      obtain ⟨h1, h2⟩ := ih b (fun hm => ha (List.mem_cons_of_mem e hm))
        (fun hm => hb (List.mem_cons_of_mem d hm)) h.2
      exact ⟨by rw [h.1, h1], h2⟩

theorem cleanText_quote (f : String) (h : cleanText f = true) : quoteChar ∉ f.data := by
  simp [cleanText] at h
  exact h.1

theorem cleanText_newline (f : String) (h : cleanText f = true) : newlineChar ∉ f.data := by
  simp [cleanText] at h
  exact h.2

theorem csvRow_data (r : AttendanceRecord) :
    (csvRow r).data =
      quoteChar :: ((templateStr r.student_name).data ++ quoteChar :: ',' :: quoteChar ::
        (r.vtu_number.data ++ quoteChar :: ',' :: quoteChar ::
          (r.slot_name.data ++ quoteChar :: ',' :: quoteChar ::
            (r.scan_date.data ++ quoteChar :: ',' :: quoteChar ::
              (r.scan_time.data ++ [quoteChar]))))) := by
  have e1 : ("\"" : String).data = [quoteChar] := rfl
  have e2 : ("\",\"" : String).data = [quoteChar, ',', quoteChar] := rfl
  simp only [csvRow, String.data_append, e1, e2, List.append_assoc, List.cons_append,
    List.nil_append]
  rfl

theorem cleanRecord_fields (r : AttendanceRecord) (h : cleanRecord r = true) :
    cleanText (templateStr r.student_name) = true ∧ cleanText r.vtu_number = true ∧
      cleanText r.slot_name = true ∧ cleanText r.scan_date = true ∧
      cleanText r.scan_time = true := by
  simpa [cleanRecord, csvFields] using h

theorem csvRow_inj (r r' : AttendanceRecord) (h : cleanRecord r = true)
    (h' : cleanRecord r' = true) (heq : csvRow r = csvRow r') : csvFields r = csvFields r' := by
  obtain ⟨a1, a2, a3, a4, a5⟩ := cleanRecord_fields r h
  obtain ⟨b1, b2, b3, b4, b5⟩ := cleanRecord_fields r' h'
  have hd : (csvRow r).data = (csvRow r').data := by rw [heq]
  rw [csvRow_data, csvRow_data] at hd
  simp only [List.cons.injEq, true_and] at hd
  obtain ⟨e1, hd⟩ := split_at_char quoteChar _ _ _ _ (cleanText_quote _ a1)
    (cleanText_quote _ b1) hd
  simp only [List.cons.injEq, true_and] at hd
  obtain ⟨e2, hd⟩ := split_at_char quoteChar _ _ _ _ (cleanText_quote _ a2)
    (cleanText_quote _ b2) hd
  simp only [List.cons.injEq, true_and] at hd
  obtain ⟨e3, hd⟩ := split_at_char quoteChar _ _ _ _ (cleanText_quote _ a3)
    (cleanText_quote _ b3) hd
  simp only [List.cons.injEq, true_and] at hd
  obtain ⟨e4, hd⟩ := split_at_char quoteChar _ _ _ _ (cleanText_quote _ a4)
    (cleanText_quote _ b4) hd
  simp only [List.cons.injEq, true_and] at hd
  obtain ⟨e5, _⟩ := split_at_char quoteChar _ _ _ _ (cleanText_quote _ a5)
    (cleanText_quote _ b5) hd
  simp only [csvFields, List.cons.injEq, and_true]
  exact ⟨String.ext e1, String.ext e2, String.ext e3, String.ext e4, String.ext e5⟩

theorem csvRow_no_newline (r : AttendanceRecord) (h : cleanRecord r = true) :
    newlineChar ∉ (csvRow r).data := by
  obtain ⟨a1, a2, a3, a4, a5⟩ := cleanRecord_fields r h
  have n1 := cleanText_newline _ a1
  have n2 := cleanText_newline _ a2
  have n3 := cleanText_newline _ a3
  have n4 := cleanText_newline _ a4
  have n5 := cleanText_newline _ a5
  have q : newlineChar ≠ quoteChar := by decide
  have c : newlineChar ≠ ',' := by decide
  rw [csvRow_data]
  simp [n1, n2, n3, n4, n5, q, c]

theorem jsJoin_data_cons (sep x y : String) (rest : List String) :
    (jsJoin sep (x :: y :: rest)).data = x.data ++ (sep.data ++ (jsJoin sep (y :: rest)).data) := by
  simp [jsJoin, String.data_append]

theorem lines_inj (ls ls' : List String) (hne : ls ≠ []) (hne' : ls' ≠ [])
    (h : ∀ l ∈ ls, newlineChar ∉ l.data) (h' : ∀ l ∈ ls', newlineChar ∉ l.data)
    (heq : jsJoin "\n" ls = jsJoin "\n" ls') : ls = ls' := by
  have en : ("\n" : String).data = [newlineChar] := rfl
  induction ls generalizing ls' with
  | nil => exact absurd rfl hne
  | cons x rest ih =>
    cases ls' with
    | nil => exact absurd rfl hne'
    | cons x' rest' =>
      have hx := h x (List.mem_cons_self x rest)
      have hx' := h' x' (List.mem_cons_self x' rest')
      have hd : (jsJoin "\n" (x :: rest)).data = (jsJoin "\n" (x' :: rest')).data := by rw [heq]
      cases rest with
      | nil =>
        cases rest' with
        | nil =>
          simp only [jsJoin] at heq
          rw [heq]
        | cons y' r' =>
          exfalso
          rw [jsJoin_data_cons, en] at hd
          simp only [jsJoin] at hd
          apply hx
          rw [hd]
          simp
      | cons y r =>
        cases rest' with
        | nil =>
          exfalso
          rw [jsJoin_data_cons, en] at hd
          simp only [jsJoin] at hd
          apply hx'
          rw [← hd]
          simp
        | cons y' r' =>
          rw [jsJoin_data_cons, jsJoin_data_cons, en] at hd
          simp only [List.singleton_append] at hd
          obtain ⟨e1, e2⟩ := split_at_char newlineChar _ _ _ _ hx hx' hd
          have hrest := ih (y' :: r') (List.cons_ne_nil y r) (List.cons_ne_nil y' r')
            (fun l hl => h l (List.mem_cons_of_mem x hl))
            (fun l hl => h' l (List.mem_cons_of_mem x' hl)) (String.ext e2)
          rw [String.ext e1, hrest]

theorem rows_inj (rs rs' : List AttendanceRecord) (h : ∀ r ∈ rs, cleanRecord r = true)
    (h' : ∀ r ∈ rs', cleanRecord r = true) (heq : rs.map csvRow = rs'.map csvRow) :
    rs.map csvFields = rs'.map csvFields := by
  induction rs generalizing rs' with
  | nil =>
    cases rs' with
    | nil => rfl
    | cons r' t' => simp at heq
  | cons r t ih =>
    cases rs' with
    | nil => simp at heq
    | cons r' t' =>
      simp only [List.map_cons, List.cons.injEq] at heq ⊢
      exact ⟨csvRow_inj r r' (h r (List.mem_cons_self r t)) (h' r' (List.mem_cons_self r' t'))
          heq.1,
        ih t' (fun x hx => h x (List.mem_cons_of_mem r hx))
          (fun x hx => h' x (List.mem_cons_of_mem r' hx)) heq.2⟩

theorem fields_inj (rs rs' : List AttendanceRecord) (hn : ∀ r ∈ rs, r.student_name ≠ none)
    (hn' : ∀ r ∈ rs', r.student_name ≠ none) (heq : rs.map csvFields = rs'.map csvFields) :
    rs = rs' := by
  induction rs generalizing rs' with
  | nil =>
    cases rs' with
    | nil => rfl
    | cons r' t' => simp at heq
  | cons r t ih =>
    cases rs' with
    | nil => simp at heq
    | cons r' t' =>
      simp only [List.map_cons, List.cons.injEq] at heq
      have ht := ih t' (fun x hx => hn x (List.mem_cons_of_mem r hx))
        (fun x hx => hn' x (List.mem_cons_of_mem r' hx)) heq.2
      have h1 := hn r (List.mem_cons_self r t)
      have h2 := hn' r' (List.mem_cons_self r' t')
      obtain ⟨n, v, sl, d, tm⟩ := r
      obtain ⟨n', v', sl', d', tm'⟩ := r'
      have hf := heq.1
      simp only [csvFields, List.cons.injEq, and_true] at hf
      cases n with
      | none => exact absurd rfl h1
      | some a =>
        cases n' with
        | none => exact absurd rfl h2
        | some a' =>
          simp only [templateStr] at hf
          obtain ⟨f1, f2, f3, f4, f5⟩ := hf
          rw [f1, f2, f3, f4, f5, ht]


theorem exportCSV_determines_field_texts (rs rs' : List AttendanceRecord)
    (h : ∀ r ∈ rs, cleanRecord r = true) (h' : ∀ r ∈ rs', cleanRecord r = true)
    (heq : exportCSV rs = exportCSV rs') : rs.map csvFields = rs'.map csvFields := by
  have hh : newlineChar ∉ (jsJoin "," ["Name", "VTU Number", "Slot", "Date", "Time"]).data := by
    decide
  have hl : ∀ (xs : List AttendanceRecord), (∀ r ∈ xs, cleanRecord r = true) →
      ∀ l ∈ jsJoin "," ["Name", "VTU Number", "Slot", "Date", "Time"] :: xs.map csvRow,
        newlineChar ∉ l.data := by
    intro xs hxs l hmem
    rcases List.mem_cons.mp hmem with hl | hl
    · rw [hl]; exact hh
    · obtain ⟨r, hr, hrl⟩ := List.mem_map.mp hl
      rw [← hrl]
      exact csvRow_no_newline r (hxs r hr)
  have hlines := lines_inj _ _ (List.cons_ne_nil _ _) (List.cons_ne_nil _ _) (hl rs h)
    (hl rs' h') heq
  exact rows_inj rs rs' h h' (List.cons.inj hlines).2

/-- C12, amended: for two lists of records in which every record has a
`student_name` and whose five fields are texts with neither a double quote nor
a newline, if `exportCSV` builds the same text from both then the lists are
equal, record by record and field by field. -/
theorem C12_exportCSV_determines_records (rs rs' : List AttendanceRecord)
    (h : ∀ r ∈ rs, cleanRecord r = true) (h' : ∀ r ∈ rs', cleanRecord r = true)
    (hn : ∀ r ∈ rs, r.student_name ≠ none) (hn' : ∀ r ∈ rs', r.student_name ≠ none)
    (heq : exportCSV rs = exportCSV rs') : rs = rs' :=
  fields_inj rs rs' hn hn' (exportCSV_determines_field_texts rs rs' h h' heq)

/-- C12 on the records of two scans, one name holding a comma. -/
theorem C12_exportCSV_determines_records_witness :
    (run asciiUpper (init true) (demoStart ++
        (demoEnv, Event.callDone 0 (some (validVerdict "Kumar, A." "vtu 1023"))) :: demoNext ++
        [(demoEnv, Event.callDone 0 (some (validVerdict "B. Devi" "vtu 2048")))])).attendanceRecords =
      [{ student_name := some "B. Devi", vtu_number := "VTU2048",
         slot_name := "Morning Session", scan_date := "2026-01-02", scan_time := "10:11 AM" },
       { student_name := some "Kumar, A.", vtu_number := "VTU1023",
         slot_name := "Morning Session", scan_date := "2026-01-02", scan_time := "10:11 AM" }] :=
  C12_exportCSV_determines_records _ _ (by decide) (by decide) (by decide) (by decide)
    (by decide)

end VeltechScanner

namespace VeltechScanner

/-! ## Acceptance, with the values the attempt captured -/

/-- C4 as stated fails when a reset and a new slot choice happen while an
attempt is in flight.  First trace: the session set is empty, so the normalized
identifier "VTU1023" is not in `scannedVtuNumbers`, yet the attempt holds the
set of the session it started in, takes the duplicate branch and no record is
created.  Second trace: the verdict is accepted, but the record carries the
slot "Morning Session" while the session's slot is "Evening Session". -/
theorem C4_reset_in_flight_counterexample :
    (run asciiUpper (init true) resetInFlightAfterAccept).scannedVtuNumbers = [] ∧
      (run asciiUpper (init true) resetInFlightAfterAccept).pendingCalls =
        [⟨1, ["VTU1023"], "Morning Session"⟩] ∧
      classify asciiUpper ["VTU1023"] (some (validVerdict "A. Kumar" "vtu 1023")) =
        Outcome.duplicate ∧
      (run asciiUpper (init true) (resetInFlightAfterAccept ++
        [(demoEnv, Event.callDone 0 (some (validVerdict "A. Kumar" "vtu 1023")))])).attendanceRecords
        = [] ∧
      (run asciiUpper (init true) resetInFlight).selectedSlot = some "Evening Session" ∧
      (run asciiUpper (init true) (resetInFlight ++
        [(demoEnv, Event.callDone 0 (some (validVerdict "A. Kumar" "vtu 1023")))])).attendanceRecords
        = [{ student_name := some "A. Kumar", vtu_number := "VTU1023",
             slot_name := "Morning Session", scan_date := "2026-01-02",
             scan_time := "10:11 AM" }] := by
  decide

/-- C4, amended: in a reachable state, when the verdict of an outstanding
attempt is valid and its normalized identifier (upper-cased, white space
removed) is not in the `scannedVtuNumbers` the attempt captured when it
started, the accepted branch is taken (`setScanStatus('success')`, which shows
while the scanner that started the attempt is still the mounted one), the new
record is put in front of the unchanged old records, it carries the verifier's
`student_name` as returned, the normalized identifier and the slot that was
selected when the attempt started, and the set is the old set plus the
normalized identifier.  When the verdict settles right after the tick that
started the attempt on a ready, idle scanner, the captured set and slot are
the session's own `scannedVtuNumbers` and `selectedSlot`. -/
theorem C4_new_identifier_for_attempt_is_accepted (upper : String → String) (online : Bool)
    (es : List (Env × Event)) (env₁ env₂ : Env) (r : AnalysisResult) (raw : String)
    (hvalid : r.is_valid = some true) (hraw : r.vtu_number = some raw) :
    (∀ i a, (run upper (init online) es).pendingCalls[i]? = some a →
        normalizeVtu upper raw ∉ a.scannedVtuNumbers →
        classify upper a.scannedVtuNumbers (some r) =
            Outcome.accepted r.student_name (normalizeVtu upper raw) ∧
          (classify upper a.scannedVtuNumbers (some r)).status = ScanStatus.success ∧
          (step upper (run upper (init online) es)
            (env₂, Event.callDone i (some r))).attendanceRecords =
            { student_name := r.student_name, vtu_number := normalizeVtu upper raw,
              slot_name := a.selectedSlot, scan_date := beforeT env₂.isoNow,
              scan_time := env₂.localeTime } ::
              (run upper (init online) es).attendanceRecords ∧
          (step upper (run upper (init online) es)
            (env₂, Event.callDone i (some r))).scannedVtuNumbers =
            (run upper (init online) es).scannedVtuNumbers ++ [normalizeVtu upper raw] ∧
          ((run upper (init online) es).scannerMounted = true →
            a.owner = (run upper (init online) es).scannerId →
            (step upper (run upper (init online) es)
              (env₂, Event.callDone i (some r))).scanStatus = ScanStatus.success)) ∧
      (∀ slot, (run upper (init online) es).selectedSlot = some slot →
        (run upper (init online) es).scannerMounted = true →
        (run upper (init online) es).scanStatus = ScanStatus.ready →
        (run upper (init online) es).isProcessing = false →
        normalizeVtu upper raw ∉ (run upper (init online) es).scannedVtuNumbers →
        (run upper (run upper (init online) es)
            [(env₁, Event.tick), (env₂, Event.callDone 0 (some r))]).scanStatus =
            ScanStatus.success ∧
          (run upper (run upper (init online) es)
            [(env₁, Event.tick), (env₂, Event.callDone 0 (some r))]).attendanceRecords =
            { student_name := r.student_name, vtu_number := normalizeVtu upper raw,
              slot_name := slot, scan_date := beforeT env₂.isoNow,
              scan_time := env₂.localeTime } ::
              (run upper (init online) es).attendanceRecords ∧
          (run upper (run upper (init online) es)
            [(env₁, Event.tick), (env₂, Event.callDone 0 (some r))]).scannedVtuNumbers =
            (run upper (init online) es).scannedVtuNumbers ++ [normalizeVtu upper raw] ∧
          (run upper (run upper (init online) es)
            [(env₁, Event.tick), (env₂, Event.callDone 0 (some r))]).selectedSlot =
            some slot) := by
  have hinv := reachable_inv upper online es
  constructor
  · intro i a ha hnew
    generalize run upper (init online) es = s at hinv ha
    have hcl := classify_valid_new upper a.scannedVtuNumbers r raw hvalid hraw hnew
    obtain ⟨hr1, hr2⟩ := resume_accepted upper env₂ i (some r) s a _ _ ha hcl
    have hnot : normalizeVtu upper raw ∉ s.scannedVtuNumbers := fun hm =>
      hnew (hinv.snapshot a (List.getElem?_mem ha) _ hm)
    refine ⟨hcl, by rw [hcl]; rfl, ?_, ?_, ?_⟩
    · simp only [step, handle, render_attendanceRecords]
      exact hr1
    · simp only [step, handle, render_scannedVtuNumbers]
      rw [hr2]
      apply newSet_of_nodup
      exact List.Nodup.append hinv.set_nodup (List.nodup_singleton _) (by simpa using hnot)
    · intro hm ho
      simp only [step, handle]
      rw [render_of_mounted _ _ hm, resume_scanStatus upper env₂ i (some r) s a ha hm ho, hcl]
      rfl
  · intro slot hslot hm hready hidle hnew
    obtain ⟨_, h2, h3, h4, h5⟩ := tick_then_valid_verdict upper online es _ env₁ env₂ r raw slot
      rfl hslot hm hready hidle hvalid hraw hnew
    exact ⟨h2, h3, h4, h5⟩

/-- C4 amended, at the scenario of the claim: the verdict with name "A. Kumar"
and identifier "vtu 1023", first scan of a session on "Morning Session", is
stored under "VTU1023"; and at the attempt that outlives a reset, whose record
carries the slot the attempt started in. -/
theorem C4_new_identifier_for_attempt_is_accepted_witness :
    ((run asciiUpper (run asciiUpper (init true) [(demoEnv, Event.selectSlot "Morning Session")])
        [(demoEnv, Event.tick),
         (demoEnv, Event.callDone 0 (some (validVerdict "A. Kumar" "vtu 1023")))]).attendanceRecords =
      [{ student_name := some "A. Kumar", vtu_number := "VTU1023",
         slot_name := "Morning Session", scan_date := "2026-01-02", scan_time := "10:11 AM" }] ∧
    (run asciiUpper (run asciiUpper (init true) [(demoEnv, Event.selectSlot "Morning Session")])
        [(demoEnv, Event.tick),
         (demoEnv, Event.callDone 0 (some (validVerdict "A. Kumar" "vtu 1023")))]).scannedVtuNumbers =
      ["VTU1023"]) ∧
    (step asciiUpper (run asciiUpper (init true) resetInFlight)
        (demoEnv, Event.callDone 0 (some (validVerdict "A. Kumar" "vtu 1023")))).attendanceRecords =
      [{ student_name := some "A. Kumar", vtu_number := "VTU1023",
         slot_name := "Morning Session", scan_date := "2026-01-02", scan_time := "10:11 AM" }] :=
  have h := C4_new_identifier_for_attempt_is_accepted asciiUpper true
    [(demoEnv, Event.selectSlot "Morning Session")] demoEnv demoEnv
    (validVerdict "A. Kumar" "vtu 1023") "vtu 1023" rfl rfl
  have h' := C4_new_identifier_for_attempt_is_accepted asciiUpper true resetInFlight
    demoEnv demoEnv (validVerdict "A. Kumar" "vtu 1023") "vtu 1023" rfl rfl
  have hseq := h.2 "Morning Session" (by decide) (by decide) (by decide) (by decide) (by decide)
  ⟨⟨hseq.2.1, hseq.2.2.1⟩,
    (h'.1 0 ⟨1, [], "Morning Session"⟩ (by decide) (by decide)).2.2.1⟩

end VeltechScanner

namespace VeltechScanner

/-! ## Responses with a field missing: what the code does -/

theorem classify_not_valid (upper : String → String) (set : List String) (r : AnalysisResult)
    (h : r.is_valid ≠ some true) :
    classify upper set (some r) =
      Outcome.rejected (if truthy r.rejection_reason then templateStr r.rejection_reason
        else "Invalid ID Card") := by
  cases hv : r.is_valid with
  | none => simp [classify, hv]
  | some b =>
    cases b with
    | true => exact absurd hv h
    | false => simp [classify, hv]

theorem classify_valid_unnumbered (upper : String → String) (set : List String)
    (r : AnalysisResult) (hv : r.is_valid = some true) (hn : r.vtu_number = none) :
    classify upper set (some r) = Outcome.callFailed := by
  simp [classify, hv, hn]

/-- C9, amended: a verifier response that is not flagged valid (`is_valid`
missing or false, whatever else it lacks), or that is flagged valid and lacks
`vtu_number`, creates no record: the records, the session and the stored
session are unchanged.  It is classified Rejected, `setScanStatus('invalid')`
with `rejection_reason` or the fallback message, when `is_valid` is missing or
false, and CallFailed, `setScanStatus('error')`, when `is_valid` is true and
`vtu_number` is missing; the scan status takes that value while the scanner
that started the attempt is still the mounted one.  This covers every response
missing a required field except one flagged valid that carries a `vtu_number`
and lacks only `student_name`. -/
theorem C9_missing_field_without_record (upper : String → String) (env : Env) (s : AppState)
    (i : Nat) (r : AnalysisResult) (a : Attempt)
    (ha : s.pendingCalls[i]? = some a)
    (hnot : r.is_valid = some true → r.vtu_number = none) :
    (r.is_valid ≠ some true →
        classify upper a.scannedVtuNumbers (some r) =
          Outcome.rejected (if truthy r.rejection_reason then templateStr r.rejection_reason
            else "Invalid ID Card")) ∧
      (r.is_valid = some true →
        classify upper a.scannedVtuNumbers (some r) = Outcome.callFailed) ∧
      (classify upper a.scannedVtuNumbers (some r)).status =
        (if r.is_valid = some true then ScanStatus.error else ScanStatus.invalid) ∧
      (s.scannerMounted = true → a.owner = s.scannerId →
        (step upper s (env, Event.callDone i (some r))).scanStatus =
          (if r.is_valid = some true then ScanStatus.error else ScanStatus.invalid)) ∧
      (step upper s (env, Event.callDone i (some r))).attendanceRecords =
        s.attendanceRecords ∧
      (step upper s (env, Event.callDone i (some r))).session = s.session ∧
      (step upper s (env, Event.callDone i (some r))).localStorage = s.localStorage := by
  have h1 := classify_not_valid upper a.scannedVtuNumbers r
  have h2 : r.is_valid = some true →
      classify upper a.scannedVtuNumbers (some r) = Outcome.callFailed :=
    fun hv => classify_valid_unnumbered upper a.scannedVtuNumbers r hv (hnot hv)
  have hstat : (classify upper a.scannedVtuNumbers (some r)).status =
      (if r.is_valid = some true then ScanStatus.error else ScanStatus.invalid) := by
    by_cases hv : r.is_valid = some true
    · rw [h2 hv, if_pos hv]; rfl
    · rw [h1 hv, if_neg hv]; rfl
  have hno : ∀ name vtu,
      classify upper a.scannedVtuNumbers (some r) ≠ Outcome.accepted name vtu := by
    intro n v hh
    by_cases hv : r.is_valid = some true
    · rw [h2 hv] at hh; cases hh
    · rw [h1 hv] at hh; cases hh
  obtain ⟨h3, h4⟩ := step_callDone_session upper env i (some r) s a ha hno
  refine ⟨h1, h2, hstat, ?_, congrArg Session.attendanceRecords h3, h3, h4⟩
  intro hm ho
  simp only [step, handle]
  rw [render_of_mounted _ _ hm, resume_scanStatus upper env i (some r) s a ha hm ho, hstat]

/-- C9 amended, on the first attempt of a session: a response flagged valid
without `vtu_number` ends in status `error`, a response without `is_valid` in
status `invalid`, and neither creates a record. -/
theorem C9_missing_field_without_record_witness :
    (step asciiUpper (run asciiUpper (init true) demoStart)
        (demoEnv, Event.callDone 0 (some unnumberedVerdict))).scanStatus = ScanStatus.error ∧
      (step asciiUpper (run asciiUpper (init true) demoStart)
        (demoEnv, Event.callDone 0 (some unnumberedVerdict))).session =
        ⟨some "Morning Session", [], []⟩ ∧
      (step asciiUpper (run asciiUpper (init true) demoStart)
        (demoEnv, Event.callDone 0 (some unflaggedVerdict))).scanStatus = ScanStatus.invalid ∧
      (step asciiUpper (run asciiUpper (init true) demoStart)
        (demoEnv, Event.callDone 0 (some unflaggedVerdict))).attendanceRecords = [] :=
  have h := C9_missing_field_without_record asciiUpper demoEnv
    (run asciiUpper (init true) demoStart) 0 unnumberedVerdict ⟨1, [], "Morning Session"⟩
    (by decide) (fun _ => rfl)
  have h' := C9_missing_field_without_record asciiUpper demoEnv
    (run asciiUpper (init true) demoStart) 0 unflaggedVerdict ⟨1, [], "Morning Session"⟩
    (by decide) (by decide)
  ⟨h.2.2.2.1 (by decide) (by decide), h.2.2.2.2.2.1, h'.2.2.2.1 (by decide) (by decide),
    h'.2.2.2.2.1⟩

end VeltechScanner

namespace VeltechScanner

/-! ## The exported text, spelled out -/

/-- C10: for every list of records the text `exportCSV` builds is the header
line "Name,VTU Number,Slot,Date,Time" followed by one row per record, in the
order of `attendanceRecords`, the lines joined by a newline; a row is the five
fields name, identifier, slot, date, time in this order, each wrapped in
double quotes and separated by commas, where the name field is the record's
`student_name` (the word `undefined` for a record stored without a name). -/
theorem C10_exportCSV_is_header_and_quoted_rows (records : List AttendanceRecord) :
    exportCSV records =
      String.intercalate "\n" ("Name,VTU Number,Slot,Date,Time" ::
        records.map (fun r => String.intercalate ","
          [quoted (r.student_name.getD "undefined"), quoted r.vtu_number, quoted r.slot_name,
           quoted r.scan_date, quoted r.scan_time])) := by
  have hrow : ∀ r : AttendanceRecord, specRow r = String.intercalate ","
      [quoted (r.student_name.getD "undefined"), quoted r.vtu_number, quoted r.slot_name,
       quoted r.scan_date, quoted r.scan_time] := by
    intro r
    cases hn : r.student_name <;> simp [specRow, csvFields, templateStr, hn]
  rw [(exportCSV_eq_specLines records).1]
  simp only [specLines, csvHeader]
  rw [funext hrow]

/-- C10 on two records, the newer one stored without a name: the text, in
full. -/
theorem C10_exportCSV_is_header_and_quoted_rows_witness :
    exportCSV
      [{ student_name := none, vtu_number := "VTU2048", slot_name := "Morning Session",
         scan_date := "2026-01-02", scan_time := "10:12 AM" },
       { student_name := some "A. Kumar", vtu_number := "VTU1023",
         slot_name := "Morning Session", scan_date := "2026-01-02", scan_time := "10:11 AM" }] =
      "Name,VTU Number,Slot,Date,Time\n\"undefined\",\"VTU2048\",\"Morning Session\",\"2026-01-02\",\"10:12 AM\"\n\"A. Kumar\",\"VTU1023\",\"Morning Session\",\"2026-01-02\",\"10:11 AM\"" :=
  (C10_exportCSV_is_header_and_quoted_rows _).trans (by decide)

end VeltechScanner

namespace VeltechScanner

/-- C12 as stated fails: a record stored without a name (the verifier left
`student_name` out) and a record whose name is the text "undefined" have
fields free of double quote and newline and export to the same text, and they
are different records. -/
theorem C12_undefined_name_counterexample :
    (run asciiUpper (init true)
        (demoStart ++ [(demoEnv, Event.callDone 0 (some namelessVerdict))])).attendanceRecords =
      [namelessRecord] ∧
    (run asciiUpper (init true)
        (demoStart ++ [(demoEnv, Event.callDone 0
          (some (validVerdict "undefined" "vtu 1023")))])).attendanceRecords =
      [undefinedNameRecord] ∧
    namelessRecord.student_name = none ∧
    undefinedNameRecord.student_name = some "undefined" ∧
    cleanRecord namelessRecord = true ∧
    cleanRecord undefinedNameRecord = true ∧
    exportCSV [namelessRecord] = exportCSV [undefinedNameRecord] ∧
    [namelessRecord] ≠ [undefinedNameRecord] := by
  decide

end VeltechScanner
